import Mathlib

/-!
# LifeGame client: session store and quest lifecycle

A shallow embedding of the React client under `src/frontend/src`:

* `App.js`: the session state (`user`, `token`, `loading`, local storage) with
  `fetchProfile`, `handleAuth`, `handleLogout` and the effect on `[token]`;
* `pages/Dashboard.js`: `fetchData`, `completeQuest`;
* `pages/QuestBoard.js`: `fetchQuests`, `generateQuiz`, `submitQuiz`,
  `handlePhotoUpload`, `completeQuest` and the verification modal;
* `pages/AvatarCreation.js`, `pages/Landing.js`: `handleSubmit`;
* `pages/Shop.js`: `fetchItems`, `purchaseItem`; `pages/Profile.js`: `fetchData`
  and the category chart; the XP bar of the dashboard;
* the `Routes` table of `App.js` and the callbacks it hands to the pages.

Each asynchronous handler becomes a pure function of the state it closes over
and of the outcome of every `await` it performs; it returns the next state and
the list of observable events (requests, toasts, callback invocations) in the
order the handler produces them.
-/

namespace LifeGame

/-! ## Local storage -/

/-- The browser local storage: an association list, first binding wins. -/
abbrev Storage := List (String × String)

namespace Storage

/-- Lookup `localStorage.getItem(key)`: the stored string, `none` for JS `null`. -/
def getItem : Storage → String → Option String
  | [], _ => none
  | (k, v) :: rest, key => if k = key then some v else getItem rest key

/-- Deletion `localStorage.removeItem(key)`. -/
def removeItem : Storage → String → Storage
  | [], _ => []
  | (k, v) :: rest, key =>
    if k = key then removeItem rest key else (k, v) :: removeItem rest key

/-- Update `localStorage.setItem(key, value)`: the old binding is replaced. -/
def setItem (st : Storage) (key value : String) : Storage :=
  (key, value) :: removeItem st key

end Storage

/-! ## HTTP outcomes -/

/-- What `await fetch(...)` followed by `await response.json()` can yield.
`rejected`: `fetch` itself rejects (no response obtained).
`response status body`: a response arrived; `body = none` when
`response.json()` rejects (the body is not JSON), `body = some a` when it
decodes to a value of the shape `α` the handler reads. The fetchers that
store a body without reading it have a second model over `JsonBody`, which
also takes a JSON body of another shape. -/
inductive Fetched (α : Type) where
  | rejected : Fetched α
  | response (status : Nat) (body : Option α) : Fetched α
  deriving DecidableEq, Repr

/-- The flag `response.ok`: the status lies in 200..299. -/
def statusOk (status : Nat) : Bool :=
  decide (200 ≤ status) && decide (status ≤ 299)

/-- A JSON error body: an optional `detail` string (spec section 4.2). -/
structure ErrorBody where
  detail : Option String
  deriving DecidableEq, Repr

/-- A decoded JSON body as a fetcher that does not test it may receive it: a
value of the shape `α` of the endpoint, or the error object a rejection
carries (which is not of that shape: no array, no Stats fields). -/
inductive JsonBody (α : Type) where
  | shaped (value : α) : JsonBody α
  | errorObject (error : ErrorBody) : JsonBody α
  deriving DecidableEq, Repr

/-- An outcome whose body, if it decoded, has the expected shape. -/
def Fetched.shaped {α : Type} : Fetched α → Fetched (JsonBody α)
  | .rejected => .rejected
  | .response status body => .response status (body.map JsonBody.shaped)

/-! ## Data model (JSON shapes returned by the server) -/

/-- Modelled from the spec: the `avatar` object of a `User` (section 3); the
server that produces it is not part of the repository. -/
structure Avatar where
  avatar_class : String
  avatar_image : String
  name : String
  deriving DecidableEq, Repr

/-- Modelled from the spec: the `User` JSON returned by `/user/profile` and by
the auth endpoints (section 3). -/
structure User where
  id : Nat
  username : String
  email : String
  gold : Int
  avatar : Option Avatar
  deriving DecidableEq, Repr

/-! ## Observable events -/

/-- What a handler does that is visible outside its own state cells. -/
inductive Event where
  /-- A call `fetch(API + path, ...)` is issued; query string and body are not recorded. -/
  | request (method path : String)
  /-- A call `toast.success(msg)`. -/
  | toastSuccess (msg : String)
  /-- A call `toast.error(msg)`. -/
  | toastError (msg : String)
  /-- A call `console.error(msg, error)`. -/
  | consoleError (msg : String)
  /-- The `onUpdate` / `onComplete` prop (the session refresh) is called. -/
  | onUpdate
  /-- The `onAuth` prop of `Landing` is called with the token and the user. -/
  | onAuth (authToken : String) (userData : User)
  /-- A call `navigate(path)` of the router. -/
  | navigate (path : String)
  deriving DecidableEq, Repr

namespace Event

/-- Is the event a `toast.success`? -/
def isToastSuccess : Event → Bool
  | toastSuccess _ => true
  | _ => false

/-- Is the event a `toast.error`? -/
def isToastError : Event → Bool
  | toastError _ => true
  | _ => false

/-- Is the event a network request? -/
def isRequest : Event → Bool
  | request _ _ => true
  | _ => false

end Event

/-! ## App.js: the session store -/

/-- The state cells of `App` together with the local storage it writes. -/
structure Session where
  storage : Storage
  user : Option User
  token : Option String
  loading : Bool
  deriving DecidableEq, Repr

/-- JS truthiness of `token`: `null` and the empty string are falsy. -/
def tokenTruthy : Option String → Bool
  | none => false
  | some t => decide (t ≠ "")

namespace App

/-- The `useState` initialisers of `App` (lines 16-18). -/
def init (ls : Storage) : Session :=
  { storage := ls, user := none, token := ls.getItem "token", loading := true }

/-- Handler `fetchProfile` (lines 28-48), given the outcome of its fetch. -/
def fetchProfile (r : Fetched User) (s : Session) : Session × List Event :=
  match r with
  | .rejected =>
    ({ s with loading := false },
      [.request "GET" "/user/profile", .consoleError "Profile fetch error:"])
  | .response status body =>
    if statusOk status then
      match body with
      | some userData =>
        ({ s with user := some userData, loading := false },
          [.request "GET" "/user/profile"])
      | none =>
        ({ s with loading := false },
          [.request "GET" "/user/profile", .consoleError "Profile fetch error:"])
    else
      ({ s with storage := s.storage.removeItem "token", token := none, loading := false },
        [.request "GET" "/user/profile"])

/-- The effect body of `useEffect(..., [token])` (lines 20-26). -/
def tokenEffect (r : Fetched User) (s : Session) : Session × List Event :=
  if tokenTruthy s.token then fetchProfile r s
  else ({ s with loading := false }, [])

/-- Handler `handleAuth` (lines 50-54). -/
def handleAuth (authToken : String) (userData : User) (s : Session) : Session :=
  { s with storage := s.storage.setItem "token" authToken,
           token := some authToken, user := some userData }

/-- Handler `handleLogout` (lines 56-60). -/
def handleLogout (s : Session) : Session :=
  { s with storage := s.storage.removeItem "token", token := none, user := none }

/-- Run a state update and, when it changed `token`, the effect on `[token]`
that React schedules after it. `r2` is the outcome of the probe that effect
issues, if it issues one. -/
def thenTokenEffect (r2 : Fetched User) (before : Session)
    (upd : Session × List Event) : Session × List Event :=
  if upd.1.token = before.token then upd
  else
    let next := tokenEffect r2 upd.1
    (next.1, upd.2 ++ next.2)

/-- Mounting `App`: the initial state, the effect on mount with the probe
outcome `r`, and the effect re-run if the probe changed `token`. -/
def mount (ls : Storage) (r r2 : Fetched User) : Session × List Event :=
  thenTokenEffect r2 (init ls) (tokenEffect r (init ls))

/-- One transition of the session store. -/
inductive Action where
  | auth (authToken : String) (userData : User)
  | logout
  | profile (r : Fetched User)
  deriving DecidableEq, Repr

/-- The state after one action. -/
def step (s : Session) : Action → Session
  | .auth t u => handleAuth t u s
  | .logout => handleLogout s
  | .profile r => (fetchProfile r s).1

/-- The state after a sequence of actions, oldest first. -/
def run (s : Session) (as : List Action) : Session :=
  as.foldl step s

/-- States reachable from the initial state for some stored data. -/
def Reachable (s : Session) : Prop :=
  ∃ ls as, s = run (init ls) as

end App

/-! ## Dashboard.js -/

/-- Modelled from the spec: the `Stats` JSON returned by `/user/stats`
(section 3). -/
structure Stats where
  level : Int
  xp : Int
  xp_to_next_level : Int
  gold : Int
  hp : Int
  max_hp : Int
  streak : Int
  completed_quests : Int
  active_quests : Int
  badges : List String
  deriving DecidableEq, Repr

/-- Modelled from the spec: the `Quest` JSON returned by `/quests/active`
(section 3). -/
structure Quest where
  id : Nat
  title : String
  description : String
  quest_type : String
  difficulty : String
  category : String
  xp_reward : Int
  gold_reward : Int
  completed_at : Option String
  deriving DecidableEq, Repr

/-- Modelled from the spec: the JSON body answered by
`POST /quests/(id)/complete` (section 6): the reward fields on success, a
`detail` string on rejection. A field the body does not carry is `none`
(JS `undefined`). -/
structure CompleteBody where
  xp_gained : Option Int
  gold_gained : Option Int
  level_up : Option Bool
  new_level : Option Int
  detail : Option String
  deriving DecidableEq, Repr

/-- String interpolation of a number-valued field inside a template literal. -/
def showField : Option Int → String
  | none => "undefined"
  | some n => toString n

/-- JS truthiness of an optional boolean field. -/
def fieldTruthy : Option Bool → Bool
  | some b => b
  | none => false

/-- The expression `detail || fallback`: an absent or empty `detail` is falsy. -/
def detailOr : Option String → String → String
  | some d, fallback => if d = "" then fallback else d
  | none, fallback => fallback

/-- The state cells of `Dashboard` (lines 8-10). -/
structure DashboardState where
  stats : Option Stats
  quests : List Quest
  loading : Bool
  /-- The error object the `stats` cell holds instead of a Stats snapshot, if
  `setStats` was last called with one (`stats` is then `none`). -/
  statsError : Option ErrorBody := none
  deriving DecidableEq, Repr

namespace Dashboard

/-- The `useState` initialisers of `Dashboard`. -/
def init : DashboardState :=
  { stats := none, quests := [], loading := true }

/-- The two requests `fetchData` issues through `Promise.all`. -/
def fetchDataRequests : List Event :=
  [.request "GET" "/user/stats", .request "GET" "/quests/active"]

/-- The call `setStats(statsData)` with whatever JSON body was received: the
code does not look at its shape. -/
def setStats (body : JsonBody Stats) (s : DashboardState) : DashboardState :=
  match body with
  | .shaped statsData => { s with stats := some statsData, statsError := none }
  | .errorObject error => { s with stats := none, statsError := some error }

/-- Handler `fetchData` (lines 16-37) on any JSON bodies. No status is
tested. `setStats(statsData)` runs first; then `questsData.slice(0, 5)`
throws when the quests body is the error object (it has no `slice`), which
lands in the catch with `stats` already overwritten. -/
def fetchDataJson (statsRes : Fetched (JsonBody Stats))
    (questsRes : Fetched (JsonBody (List Quest))) (s : DashboardState) :
    DashboardState × List Event :=
  match statsRes, questsRes with
  | .response _ (some statsBody), .response _ (some (.shaped questsData)) =>
    ({ setStats statsBody s with quests := questsData.take 5, loading := false },
      fetchDataRequests)
  | .response _ (some statsBody), .response _ (some (.errorObject _)) =>
    ({ setStats statsBody s with loading := false },
      fetchDataRequests ++ [.toastError "Failed to load dashboard data"])
  | _, _ =>
    ({ s with loading := false },
      fetchDataRequests ++ [.toastError "Failed to load dashboard data"])

/-- Handler `fetchData` (lines 16-37), given the outcome of its two fetches,
for bodies of the expected shape: `fetchDataJson` on such bodies. -/
def fetchData (statsRes : Fetched Stats) (questsRes : Fetched (List Quest))
    (s : DashboardState) : DashboardState × List Event :=
  match statsRes, questsRes with
  | .response _ (some statsData), .response _ (some questsData) =>
    ({ s with stats := some statsData, statsError := none, quests := questsData.take 5,
              loading := false },
      fetchDataRequests)
  | _, _ =>
    ({ s with loading := false },
      fetchDataRequests ++ [.toastError "Failed to load dashboard data"])

/-- The path of the completion request for a quest. -/
def completePath (questId : Nat) : String :=
  "/quests/" ++ toString questId ++ "/complete"

/-- The reward toast text (line 49). -/
def rewardMsg (data : CompleteBody) : String :=
  "Quest completed! +" ++ showField data.xp_gained ++ " XP, +" ++
    showField data.gold_gained ++ " Gold"

/-- The level-up toast text (line 51). -/
def levelUpMsg (data : CompleteBody) : String :=
  "ðŸŽ‰ Level Up! You are now level " ++ showField data.new_level ++ "!"

/-- The success toasts of the 2xx branch (lines 49-52). -/
def successToasts (data : CompleteBody) : List Event :=
  .toastSuccess (rewardMsg data) ::
    (if fieldTruthy data.level_up then [.toastSuccess (levelUpMsg data)] else [])

/-- Handler `completeQuest` (lines 39-61): `r` is the outcome of the
completion request, `statsRes` and `questsRes` those of the re-fetch that the
2xx branch awaits. -/
def completeQuest (questId : Nat) (r : Fetched CompleteBody)
    (statsRes : Fetched Stats) (questsRes : Fetched (List Quest))
    (s : DashboardState) : DashboardState × List Event :=
  match r with
  | .rejected =>
    (s, [.request "POST" (completePath questId), .toastError "Connection error"])
  | .response _ none =>
    (s, [.request "POST" (completePath questId), .toastError "Connection error"])
  | .response status (some data) =>
    if statusOk status then
      let refetch := fetchData statsRes questsRes s
      (refetch.1,
        .request "POST" (completePath questId) :: successToasts data ++ refetch.2 ++ [.onUpdate])
    else
      (s, [.request "POST" (completePath questId),
            .toastError (detailOr data.detail "Failed to complete quest")])

end Dashboard

/-! ## QuestBoard.js -/

/-- The quest creation form (lines 11-19). -/
structure QuestForm where
  title : String
  description : String
  quest_type : String
  difficulty : String
  xp_reward : Int
  gold_reward : Int
  category : String
  deriving DecidableEq, Repr

/-- Modelled from the spec: one entry of the `questions` array answered by
`/verification/quiz/generate` (section 6). -/
structure QuizQuestion where
  question : String
  options : List String
  deriving DecidableEq, Repr

/-- Modelled from the spec: the JSON body answered by
`/verification/quiz/generate`; a rejection may carry a `detail` string. -/
structure QuizBody where
  questions : List QuizQuestion
  detail : Option String := none
  deriving DecidableEq, Repr

/-- Modelled from the spec: the JSON body answered by
`/verification/quiz/submit`; a rejection may carry a `detail` string. -/
structure QuizResult where
  passed : Bool
  score : Int
  total : Int
  detail : Option String := none
  deriving DecidableEq, Repr

/-- A selected file (`e.target.files[0]`), identified by its name. -/
structure Photo where
  name : String
  deriving DecidableEq, Repr

/-- The state cells of `QuestBoard` (lines 8-24). A slot of `quizAnswers` is
`some text` for a string and `none` for an array hole. -/
structure QuestBoardState where
  quests : List Quest
  showCreate : Bool
  showVerification : Option Nat
  formData : QuestForm
  photo : Option Photo
  notes : String
  quiz : Option (List QuizQuestion)
  quizAnswers : List (Option String)
  loading : Bool
  /-- The error object the `quests` cell holds instead of an array, if
  `setQuests` was last called with one (`quests` is then empty). -/
  questsError : Option ErrorBody := none
  deriving DecidableEq, Repr

/-- JS truthiness of `showVerification`: `null` and the number 0 are falsy. -/
def idTruthy : Option Nat → Bool
  | none => false
  | some n => decide (n ≠ 0)

/-- The assignment `xs[i] = v` on a copy of the array: past the end the array
grows and the skipped positions are holes. -/
def arrayAssign (xs : List (Option String)) (i : Nat) (v : String) : List (Option String) :=
  if i < xs.length then xs.set i (some v)
  else xs ++ List.replicate (i - xs.length) none ++ [some v]

namespace QuestBoard

/-- The default quest form (lines 11-19 and 60-68). -/
def defaultForm : QuestForm :=
  { title := "", description := "", quest_type := "daily", difficulty := "medium",
    xp_reward := 100, gold_reward := 50, category := "productivity" }

/-- The `useState` initialisers of `QuestBoard`. -/
def init : QuestBoardState :=
  { quests := [], showCreate := false, showVerification := none, formData := defaultForm,
    photo := none, notes := "", quiz := none, quizAnswers := [], loading := false }

/-- The part of `fetchQuests` (lines 30-40) that runs once its fetch settles,
on any JSON body: no status and no shape is tested, `setQuests(data)` stores
what was decoded and nothing is toasted. -/
def fetchQuestsResumeJson (r : Fetched (JsonBody (List Quest))) (s : QuestBoardState) :
    QuestBoardState × List Event :=
  match r with
  | .response _ (some (.shaped data)) => ({ s with quests := data, questsError := none }, [])
  | .response _ (some (.errorObject error)) =>
    ({ s with quests := [], questsError := some error }, [])
  | _ => (s, [.toastError "Failed to load quests"])

/-- Handler `fetchQuests` (lines 30-40) on any JSON body. -/
def fetchQuestsJson (r : Fetched (JsonBody (List Quest))) (s : QuestBoardState) :
    QuestBoardState × List Event :=
  ((fetchQuestsResumeJson r s).1,
    .request "GET" "/quests/active" :: (fetchQuestsResumeJson r s).2)

/-- The render of `QuestBoard` evaluates `quests.map(...)` (line 450), which
throws when the cell holds the error object; no error boundary catches it, so
the page is gone, while local storage is not touched. -/
def renderThrows (s : QuestBoardState) : Bool :=
  s.questsError.isSome

/-- The part of `fetchQuests` (lines 30-40) that runs once its fetch settles:
the new state and the toasts, for a body of the expected shape:
`fetchQuestsResumeJson` on such a body. -/
def fetchQuestsResume (r : Fetched (List Quest)) (s : QuestBoardState) :
    QuestBoardState × List Event :=
  match r with
  | .response _ (some data) => ({ s with quests := data, questsError := none }, [])
  | _ => (s, [.toastError "Failed to load quests"])

/-- Handler `fetchQuests` (lines 30-40). -/
def fetchQuests (r : Fetched (List Quest)) (s : QuestBoardState) :
    QuestBoardState × List Event :=
  ((fetchQuestsResume r s).1, .request "GET" "/quests/active" :: (fetchQuestsResume r s).2)

/-- Handler `handleCreate` (lines 42-77): `r` is the outcome of the creation
request (its body, of whatever shape `β`, is never read), `questsRes` that of
the re-fetch. -/
def handleCreate {β : Type} (r : Fetched β) (questsRes : Fetched (List Quest))
    (s : QuestBoardState) : QuestBoardState × List Event :=
  match r with
  | .rejected =>
    ({ s with loading := false },
      [.request "POST" "/quests/create", .toastError "Connection error"])
  | .response status _ =>
    if statusOk status then
      let s1 := { s with loading := false, showCreate := false, formData := defaultForm }
      ((fetchQuestsResume questsRes s1).1,
        [.request "POST" "/quests/create", .toastSuccess "Quest created!",
          .request "GET" "/quests/active"] ++ (fetchQuestsResume questsRes s1).2)
    else
      ({ s with loading := false },
        [.request "POST" "/quests/create", .toastError "Failed to create quest"])

/-- Handler `generateQuest` (lines 79-98); the response body is never read. -/
def generateQuest {β : Type} (r : Fetched β) (questsRes : Fetched (List Quest))
    (s : QuestBoardState) : QuestBoardState × List Event :=
  match r with
  | .rejected =>
    ({ s with loading := false },
      [.request "POST" "/quests/generate", .toastError "Connection error"])
  | .response status _ =>
    if statusOk status then
      let s1 := { s with loading := false }
      ((fetchQuestsResume questsRes s1).1,
        [.request "POST" "/quests/generate", .toastSuccess "AI quest generated!",
          .request "GET" "/quests/active"] ++ (fetchQuestsResume questsRes s1).2)
    else
      ({ s with loading := false },
        [.request "POST" "/quests/generate", .toastError "Failed to generate quest"])

/-- Handler `handlePhotoUpload` (lines 100-130); the response body is never
read. -/
def handlePhotoUpload {β : Type} (r : Fetched β) (s : QuestBoardState) :
    QuestBoardState × List Event :=
  match s.photo with
  | none => (s, [.toastError "Please select a photo"])
  | some _ =>
    match r with
    | .rejected =>
      ({ s with loading := false },
        [.request "POST" "/verification/photo", .toastError "Connection error"])
    | .response status _ =>
      if statusOk status then
        ({ s with loading := false, showVerification := none, photo := none },
          [.request "POST" "/verification/photo",
            .toastSuccess "Photo uploaded! Quest ready to complete."])
      else
        ({ s with loading := false },
          [.request "POST" "/verification/photo", .toastError "Failed to upload photo"])

/-- Handler `generateQuiz` (lines 132-158). -/
def generateQuiz (r : Fetched QuizBody) (s : QuestBoardState) :
    QuestBoardState × List Event :=
  if s.notes = "" then (s, [.toastError "Please enter your study notes"])
  else
    match r with
    | .rejected =>
      ({ s with loading := false },
        [.request "POST" "/verification/quiz/generate", .toastError "Connection error"])
    | .response status body =>
      if statusOk status then
        match body with
        | some data =>
          ({ s with loading := false, quiz := some data.questions,
                    quizAnswers := List.replicate data.questions.length (some "") },
            [.request "POST" "/verification/quiz/generate", .toastSuccess "Quiz generated!"])
        | none =>
          ({ s with loading := false },
            [.request "POST" "/verification/quiz/generate", .toastError "Connection error"])
      else
        ({ s with loading := false },
          [.request "POST" "/verification/quiz/generate",
            .toastError "Failed to generate quiz"])

/-- Handler `submitQuiz` (lines 160-194). -/
def submitQuiz (r : Fetched QuizResult) (s : QuestBoardState) :
    QuestBoardState × List Event :=
  match r with
  | .rejected =>
    ({ s with loading := false },
      [.request "POST" "/verification/quiz/submit", .toastError "Connection error"])
  | .response _ none =>
    ({ s with loading := false },
      [.request "POST" "/verification/quiz/submit", .toastError "Connection error"])
  | .response status (some data) =>
    if statusOk status then
      if data.passed then
        ({ s with loading := false, showVerification := none, quiz := none, notes := "" },
          [.request "POST" "/verification/quiz/submit",
            .toastSuccess ("Quiz passed! Score: " ++ toString data.score ++ "/" ++
              toString data.total)])
      else
        ({ s with loading := false },
          [.request "POST" "/verification/quiz/submit",
            .toastError ("Quiz failed. Score: " ++ toString data.score ++ "/" ++
              toString data.total ++ ". Try again!")])
    else
      ({ s with loading := false },
        [.request "POST" "/verification/quiz/submit", .toastError "Failed to submit quiz"])

/-- The reward toast text (line 206). -/
def rewardMsg (data : CompleteBody) : String :=
  "Quest completed! +" ++ showField data.xp_gained ++ " XP, +" ++
    showField data.gold_gained ++ " Gold"

/-- The level-up toast text (line 208). -/
def levelUpMsg (data : CompleteBody) : String :=
  "Level Up! You are now level " ++ showField data.new_level ++ "!"

/-- The success toasts of the 2xx branch (lines 206-209). -/
def successToasts (data : CompleteBody) : List Event :=
  .toastSuccess (rewardMsg data) ::
    (if fieldTruthy data.level_up then [.toastSuccess (levelUpMsg data)] else [])

/-- Handler `completeQuest` (lines 196-218): `r` is the outcome of the
completion request, `questsRes` that of the re-fetch started (not awaited) by
the 2xx branch, whose toast therefore comes after `onUpdate`. -/
def completeQuest (questId : Nat) (r : Fetched CompleteBody)
    (questsRes : Fetched (List Quest)) (s : QuestBoardState) :
    QuestBoardState × List Event :=
  match r with
  | .rejected =>
    (s, [.request "POST" (Dashboard.completePath questId), .toastError "Connection error"])
  | .response _ none =>
    (s, [.request "POST" (Dashboard.completePath questId), .toastError "Connection error"])
  | .response status (some data) =>
    if statusOk status then
      ((fetchQuestsResume questsRes s).1,
        .request "POST" (Dashboard.completePath questId) :: successToasts data ++
          [.request "GET" "/quests/active", .onUpdate] ++ (fetchQuestsResume questsRes s).2)
    else
      (s, [.request "POST" (Dashboard.completePath questId),
            .toastError (detailOr data.detail "Failed to complete quest")])

/-- The `onChange` of the radio input for option `j` of question `i`
(lines 409-413). The input exists only while the modal is shown and the quiz
has a question `i` with an option `j`; its value is `j.toString()`. -/
def selectAnswer (i j : Nat) (s : QuestBoardState) : QuestBoardState :=
  match s.quiz with
  | none => s
  | some qs =>
    match qs.get? i with
    | none => s
    | some q =>
      if idTruthy s.showVerification && decide (j < q.options.length) then
        { s with quizAnswers := arrayAssign s.quizAnswers i (toString j) }
      else s

/-- The Close button of the verification modal (lines 436-441). -/
def closeVerification (s : QuestBoardState) : QuestBoardState :=
  { s with showVerification := none, quiz := none, notes := "", photo := none }

/-- The Verify / Add Proof button of a quest card (lines 482, 490). -/
def openVerification (questId : Nat) (s : QuestBoardState) : QuestBoardState :=
  { s with showVerification := some questId }

/-- One user-visible transition of the verification flow, with the outcome of
the request it performs. -/
inductive Action where
  | openVerification (questId : Nat)
  | setNotes (text : String)
  | setPhoto (file : Option Photo)
  | generateQuiz (r : Fetched QuizBody)
  | selectAnswer (i j : Nat)
  | submitQuiz (r : Fetched QuizResult)
  | photoUpload (r : Fetched Unit)
  | close
  deriving DecidableEq, Repr

/-- The state after one action. -/
def step (s : QuestBoardState) : Action → QuestBoardState
  | .openVerification questId => QuestBoard.openVerification questId s
  | .setNotes text => { s with notes := text }
  | .setPhoto file => { s with photo := file }
  | .generateQuiz r => (QuestBoard.generateQuiz r s).1
  | .selectAnswer i j => QuestBoard.selectAnswer i j s
  | .submitQuiz r => (QuestBoard.submitQuiz r s).1
  | .photoUpload r => (QuestBoard.handlePhotoUpload r s).1
  | .close => closeVerification s

/-- The state after a sequence of actions, oldest first. -/
def run (s : QuestBoardState) (as : List Action) : QuestBoardState :=
  as.foldl step s

/-- Whenever a quiz is present, `quizAnswers` has one slot per question. -/
def AnswersAligned (s : QuestBoardState) : Prop :=
  ∀ qs, s.quiz = some qs → s.quizAnswers.length = qs.length

end QuestBoard

/-- The `disabled` flag of the Submit Quiz button (line 425): loading, or some
answer slot is still the empty string. -/
def QuestBoard.submitQuizDisabled (s : QuestBoardState) : Bool :=
  s.loading || s.quizAnswers.any (fun a => decide (a = some ""))

/-- A click on the Submit Quiz button (lines 422-429): the button exists only
while the modal is shown and a quiz is present, and a disabled button does not
call its `onClick`; otherwise `submitQuiz` runs. -/
def QuestBoard.clickSubmitQuiz (r : Fetched QuizResult) (s : QuestBoardState) :
    QuestBoardState × List Event :=
  if idTruthy s.showVerification && s.quiz.isSome && !QuestBoard.submitQuizDisabled s then
    QuestBoard.submitQuiz r s
  else (s, [])

/-! ## AvatarCreation.js -/

/-- One entry of `avatarOptions` (lines 7-11); `class_` is the JS field
`class`. -/
structure AvatarOption where
  class_ : String
  image : String
  name : String
  deriving DecidableEq, Repr

/-- The state cells of `AvatarCreation` (lines 14-15). -/
structure AvatarCreationState where
  selected : Option AvatarOption
  loading : Bool
  deriving DecidableEq, Repr

namespace AvatarCreation

/-- The constant `avatarOptions` (lines 7-11). -/
def avatarOptions : List AvatarOption :=
  [{ class_ := "warrior",
     image := "https://images.unsplash.com/photo-1750092701416-174aaa737e55",
     name := "Warrior" },
   { class_ := "mage",
     image := "https://images.unsplash.com/photo-1743951896798-2936f661f939",
     name := "Mage" },
   { class_ := "noble",
     image := "https://images.unsplash.com/photo-1693921978742-c93c4a3e6172",
     name := "Noble" }]

/-- The `useState` initialisers of `AvatarCreation`. -/
def init : AvatarCreationState :=
  { selected := none, loading := false }

/-- Handler `handleSubmit` (lines 18-51); the response body is never read. -/
def handleSubmit {β : Type} (r : Fetched β) (s : AvatarCreationState) :
    AvatarCreationState × List Event :=
  match s.selected with
  | none => (s, [.toastError "Please select an avatar"])
  | some _ =>
    match r with
    | .rejected =>
      ({ s with loading := false },
        [.request "PUT" "/user/avatar", .toastError "Connection error"])
    | .response status _ =>
      if statusOk status then
        ({ s with loading := false },
          [.request "PUT" "/user/avatar", .toastSuccess "Avatar created successfully!",
            .onUpdate, .navigate "/dashboard"])
      else
        ({ s with loading := false },
          [.request "PUT" "/user/avatar", .toastError "Failed to create avatar"])

end AvatarCreation

/-! ## Landing.js -/

/-- The auth form of `Landing` (line 10). -/
structure AuthForm where
  email : String
  password : String
  username : String
  deriving DecidableEq, Repr

/-- The state cells of `Landing` (lines 8-11). -/
structure LandingState where
  showAuth : Bool
  isLogin : Bool
  formData : AuthForm
  loading : Bool
  deriving DecidableEq, Repr

/-- Modelled from the spec: the JSON body answered by `/auth/login` and
`/auth/register` (section 6): `token` and `user`; a rejection carries a
`detail` string and its other fields are not read. -/
structure AuthBody where
  token : String
  user : User
  detail : Option String := none
  deriving DecidableEq, Repr

namespace Landing

/-- The `useState` initialisers of `Landing`. -/
def init : LandingState :=
  { showAuth := false, isLogin := true,
    formData := { email := "", password := "", username := "" }, loading := false }

/-- The endpoint chosen on line 18. -/
def endpoint (s : LandingState) : String :=
  if s.isLogin then "/auth/login" else "/auth/register"

/-- Handler `handleSubmit` (lines 13-38). -/
def handleSubmit (r : Fetched AuthBody) (s : LandingState) : LandingState × List Event :=
  match r with
  | .rejected =>
    ({ s with loading := false },
      [.request "POST" (endpoint s), .toastError "Connection error. Please try again."])
  | .response _ none =>
    ({ s with loading := false },
      [.request "POST" (endpoint s), .toastError "Connection error. Please try again."])
  | .response status (some data) =>
    if statusOk status then
      ({ s with loading := false },
        [.request "POST" (endpoint s),
          .toastSuccess (if s.isLogin then "Welcome back!" else "Account created successfully!"),
          .onAuth data.token data.user])
    else
      ({ s with loading := false },
        [.request "POST" (endpoint s),
          .toastError (detailOr data.detail "Authentication failed")])

end Landing

/-! ## Shop.js -/

/-- Modelled from the spec: one entry of `/shop/items` (section 6). -/
structure ShopItem where
  id : Nat
  name : String
  description : String
  cost : Int
  item_type : String
  deriving DecidableEq, Repr

/-- The state cells of `Shop` (lines 8-9). -/
structure ShopState where
  items : List ShopItem
  loading : Bool
  /-- The error object the `items` cell holds instead of an array, if any
  (`items` is then empty). -/
  itemsError : Option ErrorBody := none
  deriving DecidableEq, Repr

namespace Shop

/-- The `useState` initialisers of `Shop`. -/
def init : ShopState :=
  { items := [], loading := true }

/-- Handler `fetchItems` (lines 15-25) on any JSON body: no status and no
shape is tested. -/
def fetchItemsJson (r : Fetched (JsonBody (List ShopItem))) (s : ShopState) :
    ShopState × List Event :=
  match r with
  | .response _ (some (.shaped data)) =>
    ({ s with items := data, itemsError := none, loading := false },
      [.request "GET" "/shop/items"])
  | .response _ (some (.errorObject error)) =>
    ({ s with items := [], itemsError := some error, loading := false },
      [.request "GET" "/shop/items"])
  | _ =>
    ({ s with loading := false },
      [.request "GET" "/shop/items", .toastError "Failed to load shop items"])

/-- The render of `Shop`, once loading is over, evaluates `items.map(...)`
(line 64), which throws when the cell holds the error object. -/
def renderThrows (s : ShopState) : Bool :=
  !s.loading && s.itemsError.isSome

/-- Handler `fetchItems` (lines 15-25) for a body of the expected shape:
`fetchItemsJson` on such a body. -/
def fetchItems (r : Fetched (List ShopItem)) (s : ShopState) : ShopState × List Event :=
  match r with
  | .response _ (some data) =>
    ({ s with items := data, itemsError := none, loading := false },
      [.request "GET" "/shop/items"])
  | _ =>
    ({ s with loading := false },
      [.request "GET" "/shop/items", .toastError "Failed to load shop items"])

/-- Handler `purchaseItem` (lines 27-33); `user` is the prop of `Shop`. -/
def purchaseItem (user : User) (item : ShopItem) (s : ShopState) : ShopState × List Event :=
  if user.gold < item.cost then (s, [.toastError "Not enough gold!"])
  else (s, [.toastSuccess ("Purchased " ++ item.name ++ "! (Feature coming soon)")])

/-- The `disabled` flag of the purchase button (line 90). -/
def purchaseDisabled (user : User) (item : ShopItem) : Bool :=
  decide (user.gold < item.cost)

end Shop

/-! ## Profile.js -/

/-- The state cells of `Profile` (lines 9-11). -/
structure ProfileState where
  stats : Option Stats
  completedQuests : List Quest
  loading : Bool
  /-- The error object the `stats` cell holds instead of a Stats snapshot, if
  any (`stats` is then `none`). -/
  statsError : Option ErrorBody := none
  /-- The error object the `completedQuests` cell holds instead of an array,
  if any (`completedQuests` is then empty). -/
  completedQuestsError : Option ErrorBody := none
  deriving DecidableEq, Repr

namespace Profile

/-- The `useState` initialisers of `Profile`. -/
def init : ProfileState :=
  { stats := none, completedQuests := [], loading := true }

/-- The call `setStats(statsData)` with whatever JSON body was received. -/
def setStats (body : JsonBody Stats) (s : ProfileState) : ProfileState :=
  match body with
  | .shaped statsData => { s with stats := some statsData, statsError := none }
  | .errorObject error => { s with stats := none, statsError := some error }

/-- The call `setCompletedQuests(questsData)` with whatever JSON body was
received. -/
def setCompletedQuests (body : JsonBody (List Quest)) (s : ProfileState) : ProfileState :=
  match body with
  | .shaped questsData => { s with completedQuests := questsData, completedQuestsError := none }
  | .errorObject error => { s with completedQuests := [], completedQuestsError := some error }

/-- Handler `fetchData` (lines 17-38) on any JSON bodies: no status and no
shape is tested, both bodies are stored and nothing is toasted. -/
def fetchDataJson (statsRes : Fetched (JsonBody Stats))
    (questsRes : Fetched (JsonBody (List Quest))) (s : ProfileState) :
    ProfileState × List Event :=
  match statsRes, questsRes with
  | .response _ (some statsBody), .response _ (some questsBody) =>
    ({ setCompletedQuests questsBody (setStats statsBody s) with loading := false },
      [.request "GET" "/user/stats", .request "GET" "/quests/completed"])
  | _, _ =>
    ({ s with loading := false },
      [.request "GET" "/user/stats", .request "GET" "/quests/completed",
        .toastError "Failed to load profile data"])

/-- The render of `Profile`, once loading is over, evaluates
`completedQuests.reduce(...)` (line 49), which throws when the cell holds the
error object. -/
def renderThrows (s : ProfileState) : Bool :=
  !s.loading && s.completedQuestsError.isSome

/-- Handler `fetchData` (lines 17-38), given the outcome of its two fetches,
for bodies of the expected shape: `fetchDataJson` on such bodies. -/
def fetchData (statsRes : Fetched Stats) (questsRes : Fetched (List Quest))
    (s : ProfileState) : ProfileState × List Event :=
  match statsRes, questsRes with
  | .response _ (some statsData), .response _ (some questsData) =>
    ({ s with stats := some statsData, statsError := none, completedQuests := questsData,
              completedQuestsError := none, loading := false },
      [.request "GET" "/user/stats", .request "GET" "/quests/completed"])
  | _, _ =>
    ({ s with loading := false },
      [.request "GET" "/user/stats", .request "GET" "/quests/completed",
        .toastError "Failed to load profile data"])

end Profile

/-! ## App.js: routes and the wiring of the page callbacks -/

/-- The pages the routes can render. -/
inductive Page where
  | landing
  | avatarCreation
  | dashboard
  | questBoard
  | profile
  | leaderboard
  | shop
  deriving DecidableEq, Repr

/-- The element of a route: a page, or a `Navigate` redirect. -/
inductive RouteElement where
  | page (p : Page)
  | navigate (target : String)
  deriving DecidableEq, Repr

/-- The `Routes` table (App.js lines 78-86): the element for a path given the
current `user`; `none` when no route matches. -/
def App.routeElement (user : Option User) (path : String) : Option RouteElement :=
  if path = "/" then
    some (match user with
      | none => .page .landing
      | some _ => .navigate "/dashboard")
  else if path = "/avatar-creation" then
    some (match user with
      | some u => if u.avatar.isNone then .page .avatarCreation else .navigate "/dashboard"
      | none => .navigate "/dashboard")
  else if path = "/dashboard" then
    some (match user with
      | some _ => .page .dashboard
      | none => .navigate "/")
  else if path = "/quests" then
    some (match user with
      | some _ => .page .questBoard
      | none => .navigate "/")
  else if path = "/profile" then
    some (match user with
      | some _ => .page .profile
      | none => .navigate "/")
  else if path = "/leaderboard" then
    some (match user with
      | some _ => .page .leaderboard
      | none => .navigate "/")
  else if path = "/shop" then
    some (match user with
      | some _ => .page .shop
      | none => .navigate "/")
  else none

/-- Follow `Navigate` redirects from a path, at most `fuel` route lookups. -/
def App.resolve : Nat → Option User → String → Option Page
  | 0, _, _ => none
  | fuel + 1, user, path =>
    match App.routeElement user path with
    | some (.page p) => some p
    | some (.navigate target) => App.resolve fuel user target
    | none => none

/-- What a page callback does to the session: `onUpdate` and `onComplete` are
bound to `fetchProfile` and `onAuth` to `handleAuth` (App.js lines 79-85);
no other event of a page reaches the session. `profileRes` is the outcome of
the profile fetch that `onUpdate` issues. -/
def App.handleEvent (profileRes : Fetched User) (s : Session) : Event → Session
  | .onUpdate => (App.fetchProfile profileRes s).1
  | .onAuth authToken userData => App.handleAuth authToken userData s
  | _ => s

/-- The session after the events of a page handler, oldest first. -/
def App.afterEvents (profileRes : Fetched User) (s : Session) (events : List Event) :
    Session :=
  events.foldl (App.handleEvent profileRes) s

/-- A request that did not succeed: `fetch` rejected, or the response status
is not 2xx. -/
def Fetched.failed {α : Type} : Fetched α → Bool
  | .rejected => true
  | .response status _ => !statusOk status

/-! ## App.js: login followed by the effect on the token -/

/-- Login as React runs it: `handleAuth` (which issues nothing itself), then,
if it changed `token`, the effect on `[token]`; `r2` is the outcome of the
probe that effect issues, if it issues one. -/
def App.login (authToken : String) (userData : User) (r2 : Fetched User) (s : Session) :
    Session × List Event :=
  App.thenTokenEffect r2 s (App.handleAuth authToken userData s, [])

/-- The seven paths declared in the `Routes` table (App.js lines 79-85). -/
def App.declaredPaths : List String :=
  ["/", "/avatar-creation", "/dashboard", "/quests", "/profile", "/leaderboard", "/shop"]

/-! ## Dashboard.js: the XP bar -/

/-- A JS number as far as the XP bar needs it: a rational, or one of the
non-finite values. `jsDiv` and `jsTimes100` compute exactly; `jsAddDouble`,
`jsDivDouble` and `jsTimes100Double` round every result to a double. -/
inductive JsNumber where
  | finite (q : ℚ)
  | nan
  | posInf
  | negInf
  deriving DecidableEq

/-- JS division `a / b`: by zero it yields `NaN` (for `0 / 0`) or an infinity. -/
def jsDiv (a b : ℚ) : JsNumber :=
  if b = 0 then
    if a = 0 then .nan else if 0 < a then .posInf else .negInf
  else .finite (a / b)

/-- JS multiplication `x * 100`. -/
def jsTimes100 : JsNumber → JsNumber
  | .finite q => .finite (q * 100)
  | .nan => .nan
  | .posInf => .posInf
  | .negInf => .negInf

/-- The constant `xpPercentage` of a render (Dashboard.js line 72):
`stats ? (stats.xp / (stats.xp + stats.xp_to_next_level)) * 100 : 0`. -/
def Dashboard.xpPercentage (stats : Option Stats) : JsNumber :=
  match stats with
  | some st => jsTimes100 (jsDiv (st.xp : ℚ) ((st.xp : ℚ) + (st.xp_to_next_level : ℚ)))
  | none => .finite 0

/-! ## Dashboard.js: the XP bar in double arithmetic -/

/-- Rounding of a rational to an integer, to the nearest one and to the even
one of the two when it lies half way. -/
def roundHalfEven (r : ℚ) : ℤ :=
  if r - ⌊r⌋ < 1 / 2 then ⌊r⌋
  else if 1 / 2 < r - ⌊r⌋ then ⌊r⌋ + 1
  else if ⌊r⌋ % 2 = 0 then ⌊r⌋ else ⌊r⌋ + 1

/-- The binary exponent a double uses for a magnitude `q`: the floor of its
base-2 logarithm, and -1022 throughout the subnormal range. -/
def doubleExponent (q : ℚ) : ℤ :=
  max (Int.log 2 q) (-1022)

/-- The distance between neighbouring doubles at magnitude `q` (53 significant
bits). -/
def doubleUlp (q : ℚ) : ℚ :=
  (2 : ℚ) ^ (doubleExponent q - 52)

/-- The multiple of `doubleUlp q` nearest to the magnitude `q`, ties to the
even multiple. -/
def roundMagnitude (q : ℚ) : ℚ :=
  doubleUlp q * (roundHalfEven (q / doubleUlp q) : ℚ)

/-- The double that an exact result `q` is rounded to (IEEE 754 binary64,
round to nearest, ties to even): an infinity once the rounded magnitude
reaches `2 ^ 1024`. -/
def toDouble (q : ℚ) : JsNumber :=
  if 0 ≤ q then
    if roundMagnitude q < (2 : ℚ) ^ (1024 : ℕ) then .finite (roundMagnitude q) else .posInf
  else
    if roundMagnitude (-q) < (2 : ℚ) ^ (1024 : ℕ) then .finite (-roundMagnitude (-q)) else .negInf

/-- JS addition `a + b` on doubles. -/
def jsAddDouble : JsNumber → JsNumber → JsNumber
  | .finite x, .finite y => toDouble (x + y)
  | .nan, _ => .nan
  | _, .nan => .nan
  | .posInf, .negInf => .nan
  | .negInf, .posInf => .nan
  | .posInf, _ => .posInf
  | _, .posInf => .posInf
  | .negInf, _ => .negInf
  | _, .negInf => .negInf

/-- JS division `a / b` on doubles (the sign of a zero is not kept). -/
def jsDivDouble : JsNumber → JsNumber → JsNumber
  | .finite x, .finite y =>
    if y = 0 then
      if x = 0 then .nan else if 0 < x then .posInf else .negInf
    else toDouble (x / y)
  | .nan, _ => .nan
  | _, .nan => .nan
  | .finite _, _ => .finite 0
  | .posInf, .finite y => if 0 ≤ y then .posInf else .negInf
  | .negInf, .finite y => if 0 ≤ y then .negInf else .posInf
  | _, _ => .nan

/-- JS multiplication `x * 100` on doubles. -/
def jsTimes100Double : JsNumber → JsNumber
  | .finite q => toDouble (q * 100)
  | .nan => .nan
  | .posInf => .posInf
  | .negInf => .negInf

/-- The constant `xpPercentage` of a render (Dashboard.js line 72) in double
arithmetic: the two fields are read as doubles, and the sum, the quotient and
the product are each rounded. -/
def Dashboard.xpPercentageDouble (stats : Option Stats) : JsNumber :=
  match stats with
  | some st =>
    jsTimes100Double
      (jsDivDouble (toDouble st.xp) (jsAddDouble (toDouble st.xp) (toDouble st.xp_to_next_level)))
  | none => .finite 0

/-- The constant `xpPercentage` of a render for a page state: a `stats` cell
that holds an error object is truthy and has no `xp`, so the value is `NaN`. -/
def Dashboard.xpPercentageOfState (s : DashboardState) : JsNumber :=
  match s.statsError with
  | some _ => .nan
  | none => Dashboard.xpPercentageDouble s.stats

/-! ## Pending requests and the buttons that start them -/

/-- The part of `handleCreate` that runs before its `await` (lines 43-54). -/
def QuestBoard.handleCreateStart (s : QuestBoardState) : QuestBoardState × List Event :=
  ({ s with loading := true }, [.request "POST" "/quests/create"])

/-- The part of `generateQuest` that runs before its `await` (lines 80-85). -/
def QuestBoard.generateQuestStart (s : QuestBoardState) : QuestBoardState × List Event :=
  ({ s with loading := true }, [.request "POST" "/quests/generate"])

/-- The part of `handlePhotoUpload` that runs before its `await`
(lines 101-116). -/
def QuestBoard.handlePhotoUploadStart (s : QuestBoardState) : QuestBoardState × List Event :=
  match s.photo with
  | none => (s, [.toastError "Please select a photo"])
  | some _ => ({ s with loading := true }, [.request "POST" "/verification/photo"])

/-- The part of `generateQuiz` that runs before its `await` (lines 133-143). -/
def QuestBoard.generateQuizStart (s : QuestBoardState) : QuestBoardState × List Event :=
  if s.notes = "" then (s, [.toastError "Please enter your study notes"])
  else ({ s with loading := true }, [.request "POST" "/verification/quiz/generate"])

/-- The part of `submitQuiz` that runs before its `await` (lines 161-173). -/
def QuestBoard.submitQuizStart (s : QuestBoardState) : QuestBoardState × List Event :=
  ({ s with loading := true }, [.request "POST" "/verification/quiz/submit"])

/-- The part of `QuestBoard.completeQuest` that runs before its `await`
(lines 197-201): the request is issued and no state cell is written. -/
def QuestBoard.completeQuestStart (questId : Nat) (s : QuestBoardState) :
    QuestBoardState × List Event :=
  (s, [.request "POST" (Dashboard.completePath questId)])

/-- The part of `Dashboard.completeQuest` that runs before its `await`
(lines 40-44): the request is issued and no state cell is written. -/
def Dashboard.completeQuestStart (questId : Nat) (s : DashboardState) :
    DashboardState × List Event :=
  (s, [.request "POST" (Dashboard.completePath questId)])

/-- The `disabled` flag of the form's Create Quest button (line 327). -/
def QuestBoard.createDisabled (s : QuestBoardState) : Bool :=
  s.loading

/-- The `disabled` flag of the AI Quest button (line 229). -/
def QuestBoard.generateQuestDisabled (s : QuestBoardState) : Bool :=
  s.loading

/-- The `disabled` flag of the Upload Photo button (line 364). -/
def QuestBoard.photoUploadDisabled (s : QuestBoardState) : Bool :=
  s.loading || s.photo.isNone

/-- The `disabled` flag of the Generate Quiz button (line 389). -/
def QuestBoard.generateQuizDisabled (s : QuestBoardState) : Bool :=
  s.loading || decide (s.notes = "")

/-- The Complete button of a quest card on the quest board (lines 497-503)
has no `disabled` attribute: it is never disabled. -/
def QuestBoard.completeDisabled (_s : QuestBoardState) : Bool :=
  false

/-- The Complete button of a quest on the dashboard (lines 168-174) has no
`disabled` attribute: it is never disabled. -/
def Dashboard.completeDisabled (_s : DashboardState) : Bool :=
  false

/-- A click on a quest board Complete button. -/
def QuestBoard.clickComplete (questId : Nat) (s : QuestBoardState) :
    QuestBoardState × List Event :=
  if QuestBoard.completeDisabled s then (s, []) else QuestBoard.completeQuestStart questId s

/-- A click on a dashboard Complete button. -/
def Dashboard.clickComplete (questId : Nat) (s : DashboardState) :
    DashboardState × List Event :=
  if Dashboard.completeDisabled s then (s, []) else Dashboard.completeQuestStart questId s

/-! ## Profile.js: the category chart -/

/-- A value stored in the accumulator object: a number, or a string. -/
inductive JsValue where
  | num (n : Nat)
  | str (s : String)
  deriving DecidableEq, Repr

/-- The function-valued members a plain object inherits from
`Object.prototype`; the accessor `__proto__` is treated apart. -/
def Profile.inheritedFunctions : List String :=
  ["constructor", "hasOwnProperty", "isPrototypeOf", "propertyIsEnumerable",
    "toLocaleString", "toString", "valueOf", "__defineGetter__", "__defineSetter__",
    "__lookupGetter__", "__lookupSetter__"]

/-- The own property stored under a key of the accumulator, if any. The
accumulator starts as the empty plain object and is kept as the list of its
own properties in creation order. -/
def Profile.lookup : List (String × JsValue) → String → Option JsValue
  | [], _ => none
  | (k, v) :: rest, key => if k = key then some v else Profile.lookup rest key

/-- The expression `(acc[category] || 0) + 1` (line 50). An own number is
incremented; an own non-empty string is truthy, so `+ 1` appends `1` to it;
a key the object does not own reads the inherited member when there is one: a
function, truthy, whose string conversion `nativeText category` (the text the
engine prints for the built-in, a parameter) gets `1` appended; any other key
reads `undefined` and yields 1. -/
def Profile.nextValue (nativeText : String → String) (acc : List (String × JsValue))
    (category : String) : JsValue :=
  match Profile.lookup acc category with
  | some (.num n) => .num (n + 1)
  | some (.str text) => if text = "" then .num 1 else .str (text ++ "1")
  | none =>
    if category ∈ Profile.inheritedFunctions then .str (nativeText category ++ "1")
    else .num 1

/-- The assignment `acc[key] = value` for a key other than `__proto__`: the
own property is overwritten, or created after the existing ones. -/
def Profile.assign : List (String × JsValue) → String → JsValue → List (String × JsValue)
  | [], key, value => [(key, value)]
  | (k, v) :: rest, key, value =>
    if k = key then (k, value) :: rest else (k, v) :: Profile.assign rest key value

/-- One step of the `reduce` (Profile.js line 50):
`acc[category] = (acc[category] || 0) + 1`. For the key `__proto__` the
assignment reaches the inherited setter, which ignores a value that is
neither an object nor `null`: the accumulator is unchanged. -/
def Profile.bump (nativeText : String → String) (acc : List (String × JsValue))
    (category : String) : List (String × JsValue) :=
  if category = "__proto__" then acc
  else Profile.assign acc category (Profile.nextValue nativeText acc category)

/-- The constant `categoryData` (Profile.js lines 49-52). -/
def Profile.categoryData (nativeText : String → String) (completedQuests : List Quest) :
    List (String × JsValue) :=
  completedQuests.foldl (fun acc quest => Profile.bump nativeText acc quest.category) []

/-- The array index a key denotes, if it is one: a canonical decimal numeral
(no leading zero) below `2^32 - 1`. -/
def Profile.arrayIndex (key : String) : Option Nat :=
  match key.data with
  | [] => none
  | c :: cs =>
    if (c :: cs).all Char.isDigit && (decide (c ≠ '0') || cs.isEmpty) then
      if (c :: cs).foldl (fun n d => 10 * n + (d.toNat - 48)) 0 < 4294967295 then
        some ((c :: cs).foldl (fun n d => 10 * n + (d.toNat - 48)) 0)
      else none
    else none

/-- The order of two array-index keys in `Object.entries`. -/
def Profile.indexLe (a b : String × JsValue) : Prop :=
  (Profile.arrayIndex a.1).getD 0 ≤ (Profile.arrayIndex b.1).getD 0

instance Profile.decidableIndexLe : DecidableRel Profile.indexLe := fun a b => by
  unfold Profile.indexLe
  infer_instance

/-- The call `Object.entries(categoryData)` (line 54): the own properties,
those with an array-index key first in ascending numeric order, then the
others in creation order. -/
def Profile.entries (acc : List (String × JsValue)) : List (String × JsValue) :=
  (acc.filter (fun e => (Profile.arrayIndex e.1).isSome)).insertionSort Profile.indexLe ++
    acc.filter (fun e => !(Profile.arrayIndex e.1).isSome)

/-- One bar of the chart (Profile.js lines 54-57). -/
structure ChartEntry where
  name : String
  quests : JsValue
  deriving DecidableEq, Repr

/-- The expression `name.charAt(0).toUpperCase() + name.slice(1)` (line 55);
`toUpperCase` is the JS built-in, taken as a parameter. -/
def Profile.capitalize (toUpperCase : String → String) (name : String) : String :=
  toUpperCase (name.take 1) ++ name.drop 1

/-- The constant `chartData` (Profile.js lines 54-57): one entry per
`Object.entries` pair of `categoryData`. -/
def Profile.chartData (toUpperCase nativeText : String → String)
    (completedQuests : List Quest) : List ChartEntry :=
  (Profile.entries (Profile.categoryData nativeText completedQuests)).map
    (fun entry => { name := Profile.capitalize toUpperCase entry.1, quests := entry.2 })

/-- Stated from the claim: one counting step of a tally of categories, every
category counted alike. -/
def Profile.tallyStep : List (String × Nat) → String → List (String × Nat)
  | [], category => [(category, 1)]
  | (k, v) :: rest, category =>
    if k = category then (k, v + 1) :: rest else (k, v) :: Profile.tallyStep rest category

/-- Stated from the claim: the tally of the categories of a list of quests,
one pair per distinct category with the number of quests of that category. -/
def Profile.tally (completedQuests : List Quest) : List (String × Nat) :=
  completedQuests.foldl (fun acc quest => Profile.tallyStep acc quest.category) []

/-- A category the accumulator object treats as an ordinary key: neither
`__proto__` nor the name of an inherited function. -/
def Profile.ordinary (category : String) : Prop :=
  category ≠ "__proto__" ∧ category ∉ Profile.inheritedFunctions

/-- The logged-out (anonymous) session: nothing persisted under `token`, no
in-memory token, no user, and the loading screen is gone. -/
def App.LoggedOut (s : Session) : Prop :=
  s.storage.getItem "token" = none ∧ s.token = none ∧ s.user = none ∧ s.loading = false

instance App.decidableLoggedOut (s : Session) : Decidable (App.LoggedOut s) := by
  unfold App.LoggedOut
  infer_instance

/-- A sample user without avatar. -/
def sampleUser : User :=
  { id := 1, username := "hero", email := "hero@example.com", gold := 10, avatar := none }

/-- A sample completion body with a level-up (the scenario of section 8). -/
def sampleLevelUp : CompleteBody :=
  { xp_gained := some 50, gold_gained := some 20, level_up := some true,
    new_level := some 5, detail := none }

/-- A sample authenticated session. -/
def sampleSession : Session :=
  { storage := [("token", "abc")], user := some sampleUser, token := some "abc",
    loading := false }

/-- A sample quiz of two questions. -/
def sampleQuiz : List QuizQuestion :=
  [{ question := "What is 2 + 2?", options := ["3", "4"] },
   { question := "Which is a prime?", options := ["4", "6", "7"] }]

/-- A sample verification flow: open the modal, type notes, generate the
sample quiz, answer the second question, fail a submission. -/
def sampleFlow : List QuestBoard.Action :=
  [.openVerification 7, .setNotes "my notes",
    .generateQuiz (.response 200 (some { questions := sampleQuiz })),
    .selectAnswer 1 2,
    .submitQuiz (.response 200 (some { passed := false, score := 0, total := 2 }))]

/-- A sample state with the quiz generated and only the second question
answered. -/
def samplePartlyAnswered : QuestBoardState :=
  QuestBoard.run QuestBoard.init
    [.openVerification 7, .setNotes "my notes",
      .generateQuiz (.response 200 (some { questions := sampleQuiz })), .selectAnswer 1 2]

/-- A sample open verification session: a photo picked, notes typed, the
sample quiz generated and fully answered. -/
def sampleVerification : QuestBoardState :=
  { QuestBoard.init with
    showVerification := some 7, photo := some { name := "proof.jpg" }, notes := "my notes",
    quiz := some sampleQuiz, quizAnswers := [some "1", some "2"] }

/-- A sample failing quiz result. -/
def sampleFailed : QuizResult :=
  { passed := false, score := 1, total := 2 }

/-- A sample passing quiz result. -/
def samplePassed : QuizResult :=
  { passed := true, score := 2, total := 2 }

/-- A sample shop item costing exactly the gold of `sampleUser`. -/
def sampleItem : ShopItem :=
  { id := 3, name := "Potion", description := "Restores health", cost := 10,
    item_type := "consumable" }

/-- A sample shop item the `sampleUser` cannot afford (gold 10, cost 50). -/
def sampleDearItem : ShopItem :=
  { id := 4, name := "Sword", description := "A sharp blade", cost := 50,
    item_type := "weapon" }

/-- A sample error body carrying a `detail`. -/
def sampleError : ErrorBody :=
  { detail := some "Not authenticated" }

/-- A sample state of `AvatarCreation` with the first option selected. -/
def sampleAvatarChoice : AvatarCreationState :=
  { selected := AvatarCreation.avatarOptions.head?, loading := false }

/-- A sample rejection body of the auth endpoints. -/
def sampleAuthError : AuthBody :=
  { token := "", user := sampleUser, detail := some "Not authenticated" }

/-- A sample quest of category `study`. -/
def sampleQuest : Quest :=
  { id := 42, title := "Read a chapter", description := "Read chapter 3", quest_type := "daily",
    difficulty := "easy", category := "study", xp_reward := 50, gold_reward := 20,
    completed_at := none }

/-- A sample quest board showing one active quest. -/
def sampleBoard : QuestBoardState :=
  { QuestBoard.init with quests := [sampleQuest], showCreate := true }

/-- The anonymous session a fresh client settles in: nothing persisted. -/
def sampleAnonymous : Session :=
  (App.mount [] .rejected .rejected).1

/-- A sample Stats snapshot: 30 XP gained, 70 XP to the next level. -/
def sampleStats : Stats :=
  { level := 3, xp := 30, xp_to_next_level := 70, gold := 10, hp := 90, max_hp := 100,
    streak := 2, completed_quests := 5, active_quests := 1, badges := ["first_quest"] }

/-- A snapshot with `2 ^ 53` XP and 1 XP to go. -/
def sampleSaturatedStats : Stats :=
  { sampleStats with xp := 9007199254740992, xp_to_next_level := 1 }

/-- A snapshot with `2 ^ 1023` XP and as much to go. -/
def sampleOverflowStats : Stats :=
  { sampleStats with xp := 2 ^ 1023, xp_to_next_level := 2 ^ 1023 }

/-- A sample dashboard showing one active quest. -/
def sampleDashboard : DashboardState :=
  { stats := some sampleStats, quests := [sampleQuest], loading := false }

/-- The count a tally holds for a category, 0 when the category is absent. -/
def Profile.valueOf : List (String × Nat) → String → Nat
  | [], _ => 0
  | (k, v) :: rest, category => if k = category then v else Profile.valueOf rest category

/-- A sample text for the string conversion of an inherited function. -/
def sampleNativeText (name : String) : String :=
  "function " ++ name ++ "() [native code]"

/-- A sample list of completed quests: one of category `study`, one whose
category is the string `__proto__`. -/
def sampleProtoQuests : List Quest :=
  [sampleQuest, { sampleQuest with id := 45, category := "__proto__" }]

/-- A sample list of completed quests: two whose category is the string
`constructor`. -/
def sampleConstructorQuests : List Quest :=
  [{ sampleQuest with id := 46, category := "constructor" },
    { sampleQuest with id := 47, category := "constructor" }]

/-- A sample list of completed quests: two of category `study`, one of
category `fitness`. -/
def sampleCompleted : List Quest :=
  [sampleQuest, { sampleQuest with id := 43, category := "fitness" },
    { sampleQuest with id := 44 }]

/-! ## Storage lemmas -/

theorem Storage.getItem_removeItem (st : Storage) (key : String) :
    (st.removeItem key).getItem key = none := by
  induction st with
  | nil => rfl
  | cons p rest ih =>
    obtain ⟨k, v⟩ := p
    by_cases h : k = key
    · simp [Storage.removeItem, h, ih]
    · simp [Storage.removeItem, Storage.getItem, h, ih]

theorem Storage.getItem_setItem (st : Storage) (key value : String) :
    (st.setItem key value).getItem key = some value := by
  simp [Storage.setItem, Storage.getItem]

theorem Storage.removeItem_removeItem (st : Storage) (key : String) :
    (st.removeItem key).removeItem key = st.removeItem key := by
  induction st with
  | nil => rfl
  | cons p rest ih =>
    obtain ⟨k, v⟩ := p
    by_cases h : k = key
    · simp [Storage.removeItem, h, ih]
    · simp [Storage.removeItem, h, ih]

theorem statusOk_false_of_not (status : Nat) (h : ¬ (200 ≤ status ∧ status ≤ 299)) :
    statusOk status = false := by
  unfold statusOk
  by_cases h1 : 200 ≤ status
  · have h2 : ¬ status ≤ 299 := fun h2 => h ⟨h1, h2⟩
    simp [h2]
  · simp [h1]

/-! ## Session store: failed probes, login, logout -/

/-- C1: for every persisted token `T`, when the initial profile probe receives
a response whose status is not 2xx, `fetchProfile` leaves the session logged
out (the `token` key removed from local storage, no in-memory token, no user,
loading false); and when `T` is truthy, so that mounting `App` really issues
the probe, the mounted session ends in that state too, whatever the effect
re-run on the token change does. -/
theorem probe_non2xx_logs_out (ls : Storage) (T : String) (status : Nat)
    (body : Option User) (r2 : Fetched User)
    (hT : ls.getItem "token" = some T)
    (hst : ¬ (200 ≤ status ∧ status ≤ 299)) :
    App.LoggedOut (App.fetchProfile (.response status body) (App.init ls)).1 ∧
      (T ≠ "" → App.LoggedOut (App.mount ls (.response status body) r2).1) := by
  have hok := statusOk_false_of_not status hst
  refine ⟨?_, ?_⟩
  · simp [App.LoggedOut, App.fetchProfile, hok, App.init, Storage.getItem_removeItem]
  · intro hne
    simp [App.LoggedOut, App.mount, App.thenTokenEffect, App.tokenEffect, App.fetchProfile,
      hok, App.init, hT, tokenTruthy, hne, Storage.getItem_removeItem]

/-- C1 at a concrete input: the token `abc` is persisted and the probe is
answered with status 401. -/
theorem probe_non2xx_logs_out_witness :
    Storage.getItem [("token", "abc")] "token" = some "abc" ∧
      ¬ (200 ≤ 401 ∧ 401 ≤ 299) ∧
      App.LoggedOut (App.mount [("token", "abc")] (.response 401 none) .rejected).1 :=
  ⟨by decide, by decide,
    (probe_non2xx_logs_out [("token", "abc")] "abc" 401 none .rejected (by decide)
      (by decide)).2 (by decide)⟩

/-- C2, as stated, fails: with the token `abc` persisted and the probe failing
at network level, the mounted session still holds `abc` in local storage and
in memory. -/
theorem probe_network_failure_keeps_token_counterexample :
    (App.mount [("token", "abc")] .rejected .rejected).1.storage.getItem "token" = some "abc" ∧
      (App.mount [("token", "abc")] .rejected .rejected).1.token = some "abc" ∧
      ¬ App.LoggedOut (App.mount [("token", "abc")] .rejected .rejected).1 := by
  decide

/-- C2, amended: for every persisted truthy token `T`, when the initial probe
fails at network level the session ends with the user absent and loading
false, and the token is kept: local storage is unchanged, so `token` is still
`T` there, and the in-memory token is still `T`. -/
theorem probe_network_failure_keeps_token (ls : Storage) (T : String) (r2 : Fetched User)
    (hT : ls.getItem "token" = some T) (hne : T ≠ "") :
    (App.mount ls .rejected r2).1.user = none ∧
      (App.mount ls .rejected r2).1.loading = false ∧
      (App.mount ls .rejected r2).1.storage = ls ∧
      (App.mount ls .rejected r2).1.storage.getItem "token" = some T ∧
      (App.mount ls .rejected r2).1.token = some T := by
  simp [App.mount, App.thenTokenEffect, App.tokenEffect, App.fetchProfile, App.init, hT,
    tokenTruthy, hne]

/-- C2 (amended) at a concrete input: the token `abc` is persisted and the
probe is rejected. -/
theorem probe_network_failure_keeps_token_witness :
    Storage.getItem [("token", "abc")] "token" = some "abc" ∧ "abc" ≠ "" ∧
      (App.mount [("token", "abc")] .rejected .rejected).1.user = none ∧
      (App.mount [("token", "abc")] .rejected .rejected).1.token = some "abc" :=
  have h := probe_network_failure_keeps_token [("token", "abc")] "abc" .rejected
    (by decide) (by decide)
  ⟨by decide, by decide, h.1, h.2.2.2.2⟩

/-- C3, evaluated at an authenticated session: a refresh answered with status
401 clears the token but keeps the user, whereas `handleLogout` drops the
user; the two resulting states differ. -/
theorem refresh_failure_keeps_user :
    (App.fetchProfile (.response 401 none) sampleSession).1.token = none ∧
      (App.fetchProfile (.response 401 none) sampleSession).1.user = some sampleUser ∧
      (App.handleLogout sampleSession).user = none ∧
      (App.fetchProfile (.response 401 none) sampleSession).1 ≠
        App.handleLogout sampleSession := by
  decide

/-- C4, evaluated on a reachable state: after `handleAuth` and a profile fetch
answered with status 401, the user is present although the token is absent. -/
theorem reachable_user_without_token :
    App.Reachable
        (App.run (App.init []) [.auth "abc" sampleUser, .profile (.response 401 none)]) ∧
      (App.run (App.init []) [.auth "abc" sampleUser, .profile (.response 401 none)]).user =
        some sampleUser ∧
      (App.run (App.init []) [.auth "abc" sampleUser, .profile (.response 401 none)]).token =
        none :=
  ⟨⟨[], _, rfl⟩, by decide, by decide⟩

/-- C5: for every token `t`, user `u` and prior session state, `handleAuth t u`
leaves `token = t` in local storage, the in-memory token `t` and the
in-memory user `u`, and does not change the loading flag. -/
theorem handleAuth_sets_session (t : String) (u : User) (s : Session) :
    (App.handleAuth t u s).storage.getItem "token" = some t ∧
      (App.handleAuth t u s).token = some t ∧
      (App.handleAuth t u s).user = some u ∧
      (App.handleAuth t u s).loading = s.loading := by
  simp [App.handleAuth, Storage.getItem_setItem]

/-- C6: from every session state, `handleLogout` leaves local storage without
the `token` key, the in-memory token absent and the user absent; applying it
twice gives the same state as applying it once. -/
theorem handleLogout_clears_and_idempotent (s : Session) :
    (App.handleLogout s).storage.getItem "token" = none ∧
      (App.handleLogout s).token = none ∧
      (App.handleLogout s).user = none ∧
      App.handleLogout (App.handleLogout s) = App.handleLogout s := by
  simp [App.handleLogout, Storage.getItem_removeItem, Storage.removeItem_removeItem]

/-! ## Quest completion -/

theorem statusOk_of_range (status : Nat) (h : 200 ≤ status ∧ status ≤ 299) :
    statusOk status = true := by
  simp [statusOk, h.1, h.2]

theorem Dashboard.filter_success_successToasts (data : CompleteBody) :
    (Dashboard.successToasts data).filter Event.isToastSuccess =
      Dashboard.successToasts data := by
  unfold Dashboard.successToasts
  split <;> simp [Event.isToastSuccess]

theorem Dashboard.filter_error_successToasts (data : CompleteBody) :
    (Dashboard.successToasts data).filter Event.isToastError = [] := by
  unfold Dashboard.successToasts
  split <;> simp [Event.isToastError]

theorem QuestBoard.board_filter_success_successToasts (data : CompleteBody) :
    (QuestBoard.successToasts data).filter Event.isToastSuccess =
      QuestBoard.successToasts data := by
  unfold QuestBoard.successToasts
  split <;> simp [Event.isToastSuccess]

theorem QuestBoard.board_filter_error_successToasts (data : CompleteBody) :
    (QuestBoard.successToasts data).filter Event.isToastError = [] := by
  unfold QuestBoard.successToasts
  split <;> simp [Event.isToastError]

theorem Dashboard.filter_success_fetchData (statsRes : Fetched Stats)
    (questsRes : Fetched (List Quest)) (s : DashboardState) :
    (Dashboard.fetchData statsRes questsRes s).2.filter Event.isToastSuccess = [] := by
  unfold Dashboard.fetchData
  split <;> simp [Dashboard.fetchDataRequests, Event.isToastSuccess]

theorem QuestBoard.filter_success_fetchQuestsResume (r : Fetched (List Quest))
    (s : QuestBoardState) :
    (QuestBoard.fetchQuestsResume r s).2.filter Event.isToastSuccess = [] := by
  unfold QuestBoard.fetchQuestsResume
  split <;> simp [Event.isToastSuccess]

theorem Dashboard.fetchData_requests (statsRes : Fetched Stats)
    (questsRes : Fetched (List Quest)) (s : DashboardState) :
    Event.request "GET" "/user/stats" ∈ (Dashboard.fetchData statsRes questsRes s).2 ∧
      Event.request "GET" "/quests/active" ∈ (Dashboard.fetchData statsRes questsRes s).2 := by
  unfold Dashboard.fetchData
  split <;> simp [Dashboard.fetchDataRequests]

theorem QuestBoard.stats_not_mem_successToasts (data : CompleteBody) :
    Event.request "GET" "/user/stats" ∉ QuestBoard.successToasts data := by
  unfold QuestBoard.successToasts
  split <;> simp

theorem QuestBoard.stats_not_mem_fetchQuestsResume (r : Fetched (List Quest))
    (s : QuestBoardState) :
    Event.request "GET" "/user/stats" ∉ (QuestBoard.fetchQuestsResume r s).2 := by
  unfold QuestBoard.fetchQuestsResume
  split <;> simp

/-- C7, as stated, fails for the quest board: on a 2xx completion response
`QuestBoard.completeQuest` issues no `GET /user/stats`. -/
theorem questBoard_complete_no_stats_refetch_counterexample :
    Event.request "GET" "/user/stats" ∉
      (QuestBoard.completeQuest 42 (.response 200 (some sampleLevelUp))
        (.response 200 (some [])) QuestBoard.init).2 := by
  decide

/-- C7, amended: whenever `completeQuest` receives a 2xx response with a JSON
body, whatever the reward values and whatever the re-fetch yields,
`Dashboard.completeQuest` issues `GET /user/stats` and `GET /quests/active`
and calls `onUpdate`, while `QuestBoard.completeQuest` issues
`GET /quests/active` and calls `onUpdate` but issues no `GET /user/stats`. -/
theorem complete_success_refetches (questId status : Nat) (data : CompleteBody)
    (statsRes : Fetched Stats) (questsRes : Fetched (List Quest))
    (d : DashboardState) (q : QuestBoardState)
    (hst : 200 ≤ status ∧ status ≤ 299) :
    (Event.request "GET" "/user/stats" ∈
        (Dashboard.completeQuest questId (.response status (some data)) statsRes questsRes d).2 ∧
      Event.request "GET" "/quests/active" ∈
        (Dashboard.completeQuest questId (.response status (some data)) statsRes questsRes d).2 ∧
      Event.onUpdate ∈
        (Dashboard.completeQuest questId (.response status (some data)) statsRes questsRes d).2) ∧
    (Event.request "GET" "/quests/active" ∈
        (QuestBoard.completeQuest questId (.response status (some data)) questsRes q).2 ∧
      Event.onUpdate ∈
        (QuestBoard.completeQuest questId (.response status (some data)) questsRes q).2 ∧
      Event.request "GET" "/user/stats" ∉
        (QuestBoard.completeQuest questId (.response status (some data)) questsRes q).2) := by
  have hok := statusOk_of_range status hst
  have hreq := Dashboard.fetchData_requests statsRes questsRes d
  have h1 := QuestBoard.stats_not_mem_successToasts data
  have h2 := QuestBoard.stats_not_mem_fetchQuestsResume questsRes q
  refine ⟨⟨?_, ?_, ?_⟩, ?_, ?_, ?_⟩
  · simp [Dashboard.completeQuest, hok, hreq.1]
  · simp [Dashboard.completeQuest, hok, hreq.2]
  · simp [Dashboard.completeQuest, hok]
  · simp [QuestBoard.completeQuest, hok]
  · simp [QuestBoard.completeQuest, hok]
  · simp [QuestBoard.completeQuest, hok, h1, h2]

/-- C7 (amended) at a concrete input: quest 42, status 200, the sample level-up
body, failing re-fetches. -/
theorem complete_success_refetches_witness :
    (200 ≤ 200 ∧ 200 ≤ 299) ∧
      Event.request "GET" "/user/stats" ∈
        (Dashboard.completeQuest 42 (.response 200 (some sampleLevelUp)) .rejected .rejected
          Dashboard.init).2 ∧
      Event.request "GET" "/user/stats" ∉
        (QuestBoard.completeQuest 42 (.response 200 (some sampleLevelUp)) .rejected
          QuestBoard.init).2 :=
  have h := complete_success_refetches 42 200 sampleLevelUp .rejected .rejected
    Dashboard.init QuestBoard.init (by decide)
  ⟨by decide, h.1.1, h.2.2.2⟩

theorem Dashboard.filter_error_fetchData_decoded (a b : Nat) (statsData : Stats)
    (questsData : List Quest) (s : DashboardState) :
    (Dashboard.fetchData (.response a (some statsData)) (.response b (some questsData)) s).2.filter
      Event.isToastError = [] := by
  simp [Dashboard.fetchData, Dashboard.fetchDataRequests, Event.isToastError]

/-- C8, as stated, fails: on a 2xx completion response with a level-up, when
the re-fetch awaited by `Dashboard.completeQuest` fails, the handler run
produces the error notification of `fetchData` between the two success
notifications and `onUpdate`. -/
theorem complete_success_error_toast_counterexample :
    (Dashboard.completeQuest 42 (.response 200 (some sampleLevelUp)) .rejected .rejected
        Dashboard.init).2 =
      [.request "POST" "/quests/42/complete",
        .toastSuccess "Quest completed! +50 XP, +20 Gold",
        .toastSuccess "ðŸŽ‰ Level Up! You are now level 5!",
        .request "GET" "/user/stats", .request "GET" "/quests/active",
        .toastError "Failed to load dashboard data", .onUpdate] := by
  decide

/-- C8, amended: on every 2xx completion response with a JSON body, in
`Dashboard.completeQuest` and `QuestBoard.completeQuest` alike and whatever
the re-fetch yields, the success notifications are exactly the reward
notification followed by the level-up notification when `level_up` is true,
and exactly the reward notification when `level_up` is false; the handler adds
no error notification of its own: the error notifications of the run are those
of the re-fetch, and there is none when the re-fetch bodies decode. -/
theorem complete_success_notifications (questId status : Nat) (data : CompleteBody)
    (statsRes : Fetched Stats) (questsRes : Fetched (List Quest))
    (d : DashboardState) (q : QuestBoardState)
    (hst : 200 ≤ status ∧ status ≤ 299) :
    (data.level_up = some true →
      (Dashboard.completeQuest questId (.response status (some data)) statsRes questsRes d).2.filter
          Event.isToastSuccess =
        [.toastSuccess (Dashboard.rewardMsg data), .toastSuccess (Dashboard.levelUpMsg data)] ∧
      (QuestBoard.completeQuest questId (.response status (some data)) questsRes q).2.filter
          Event.isToastSuccess =
        [.toastSuccess (QuestBoard.rewardMsg data),
          .toastSuccess (QuestBoard.levelUpMsg data)]) ∧
    (data.level_up = some false →
      (Dashboard.completeQuest questId (.response status (some data)) statsRes questsRes d).2.filter
          Event.isToastSuccess =
        [.toastSuccess (Dashboard.rewardMsg data)] ∧
      (QuestBoard.completeQuest questId (.response status (some data)) questsRes q).2.filter
          Event.isToastSuccess =
        [.toastSuccess (QuestBoard.rewardMsg data)]) ∧
    (Dashboard.completeQuest questId (.response status (some data)) statsRes questsRes d).2.filter
        Event.isToastError =
      (Dashboard.fetchData statsRes questsRes d).2.filter Event.isToastError ∧
    (QuestBoard.completeQuest questId (.response status (some data)) questsRes q).2.filter
        Event.isToastError =
      (QuestBoard.fetchQuestsResume questsRes q).2.filter Event.isToastError ∧
    (∀ a b statsData questsData, statsRes = .response a (some statsData) →
      questsRes = .response b (some questsData) →
      (Dashboard.completeQuest questId (.response status (some data)) statsRes questsRes d).2.filter
          Event.isToastError = [] ∧
      (QuestBoard.completeQuest questId (.response status (some data)) questsRes q).2.filter
          Event.isToastError = []) := by
  have hok := statusOk_of_range status hst
  have hD : (Dashboard.completeQuest questId (.response status (some data)) statsRes
      questsRes d).2.filter Event.isToastSuccess = Dashboard.successToasts data := by
    simp [Dashboard.completeQuest, hok, Event.isToastSuccess,
      Dashboard.filter_success_successToasts, Dashboard.filter_success_fetchData]
  have hQ : (QuestBoard.completeQuest questId (.response status (some data))
      questsRes q).2.filter Event.isToastSuccess = QuestBoard.successToasts data := by
    simp [QuestBoard.completeQuest, hok, Event.isToastSuccess,
      QuestBoard.board_filter_success_successToasts, QuestBoard.filter_success_fetchQuestsResume]
  have hDe : (Dashboard.completeQuest questId (.response status (some data)) statsRes
      questsRes d).2.filter Event.isToastError =
      (Dashboard.fetchData statsRes questsRes d).2.filter Event.isToastError := by
    simp [Dashboard.completeQuest, hok, Event.isToastError,
      Dashboard.filter_error_successToasts]
  have hQe : (QuestBoard.completeQuest questId (.response status (some data))
      questsRes q).2.filter Event.isToastError =
      (QuestBoard.fetchQuestsResume questsRes q).2.filter Event.isToastError := by
    simp [QuestBoard.completeQuest, hok, Event.isToastError,
      QuestBoard.board_filter_error_successToasts]
  refine ⟨?_, ?_, hDe, hQe, ?_⟩
  · intro hl
    rw [hD, hQ]
    simp [Dashboard.successToasts, QuestBoard.successToasts, hl, fieldTruthy]
  · intro hl
    rw [hD, hQ]
    simp [Dashboard.successToasts, QuestBoard.successToasts, hl, fieldTruthy]
  · intro a b statsData questsData h1 h2
    rw [hDe, hQe]
    subst h1 h2
    exact ⟨Dashboard.filter_error_fetchData_decoded a b statsData questsData d,
      by simp [QuestBoard.fetchQuestsResume]⟩

/-- C8 (amended) at a concrete input: quest 42, status 200, the sample level-up
body. -/
theorem complete_success_notifications_witness :
    (200 ≤ 200 ∧ 200 ≤ 299) ∧
      (Dashboard.completeQuest 42 (.response 200 (some sampleLevelUp)) .rejected .rejected
          Dashboard.init).2.filter Event.isToastSuccess =
        [.toastSuccess (Dashboard.rewardMsg sampleLevelUp),
          .toastSuccess (Dashboard.levelUpMsg sampleLevelUp)] ∧
      (QuestBoard.completeQuest 42 (.response 200 (some sampleLevelUp)) .rejected
          QuestBoard.init).2.filter Event.isToastSuccess =
        [.toastSuccess (QuestBoard.rewardMsg sampleLevelUp),
          .toastSuccess (QuestBoard.levelUpMsg sampleLevelUp)] :=
  have h := (complete_success_notifications 42 200 sampleLevelUp .rejected .rejected
    Dashboard.init QuestBoard.init (by decide)).1 rfl
  ⟨by decide, h.1, h.2⟩

/-- C9, as stated, fails: a non-2xx completion response whose body is not JSON
(so it carries no `detail`) yields the notification `Connection error`, not
the generic `Failed to complete quest`. -/
theorem complete_failure_text_counterexample :
    (Dashboard.completeQuest 42 (.response 502 none) .rejected .rejected Dashboard.init).2 =
        [.request "POST" "/quests/42/complete", .toastError "Connection error"] ∧
      Event.toastError "Failed to complete quest" ∉
        (Dashboard.completeQuest 42 (.response 502 none) .rejected .rejected Dashboard.init).2 := by
  decide

/-- C9, amended: when `completeQuest` receives a non-2xx response, in
`Dashboard` and `QuestBoard` alike, the state (quest list, stats and all
other cells) is unchanged and, after the completion request itself, the only
event is one error notification: neither a re-fetch nor `onUpdate` is issued.
Its text is the `detail` of a JSON body when that is a non-empty string, the
generic `Failed to complete quest` when a JSON body has no or an empty
`detail`, and `Connection error` when the body is not JSON. -/
theorem complete_failure_only_error_toast (questId status : Nat) (body : Option CompleteBody)
    (statsRes : Fetched Stats) (questsRes : Fetched (List Quest))
    (d : DashboardState) (q : QuestBoardState)
    (hst : ¬ (200 ≤ status ∧ status ≤ 299)) :
    (∃ text,
      Dashboard.completeQuest questId (.response status body) statsRes questsRes d =
        (d, [.request "POST" (Dashboard.completePath questId), .toastError text]) ∧
      QuestBoard.completeQuest questId (.response status body) questsRes q =
        (q, [.request "POST" (Dashboard.completePath questId), .toastError text]) ∧
      (body = none → text = "Connection error") ∧
      (∀ data, body = some data → data.detail = none → text = "Failed to complete quest") ∧
      (∀ data, body = some data → data.detail = some "" →
        text = "Failed to complete quest") ∧
      (∀ data dt, body = some data → data.detail = some dt → dt ≠ "" → text = dt)) := by
  have hok := statusOk_false_of_not status hst
  cases body with
  | none =>
    exact ⟨"Connection error", by simp [Dashboard.completeQuest],
      by simp [QuestBoard.completeQuest], fun _ => rfl, by simp, by simp, by simp⟩
  | some data =>
    refine ⟨detailOr data.detail "Failed to complete quest",
      by simp [Dashboard.completeQuest, hok], by simp [QuestBoard.completeQuest, hok],
      by simp, ?_, ?_, ?_⟩
    · intro data2 h hd
      injection h with h
      subst h
      simp [hd, detailOr]
    · intro data2 h hd
      injection h with h
      subst h
      simp [hd, detailOr]
    · intro data2 dt h hd hne
      injection h with h
      subst h
      simp [hd, detailOr, hne]

/-- C9 (amended) at a concrete input: quest 42, status 400 with a `detail`. -/
theorem complete_failure_only_error_toast_witness :
    ¬ (200 ≤ 400 ∧ 400 ≤ 299) ∧
      ∃ text,
        Dashboard.completeQuest 42
            (.response 400 (some { sampleLevelUp with detail := some "Quest already completed" }))
            .rejected .rejected Dashboard.init =
          (Dashboard.init,
            [.request "POST" (Dashboard.completePath 42), .toastError text]) ∧
        text = "Quest already completed" :=
  have h := complete_failure_only_error_toast 42 400
    (some { sampleLevelUp with detail := some "Quest already completed" })
    .rejected .rejected Dashboard.init QuestBoard.init (by decide)
  ⟨by decide, h.choose, h.choose_spec.1,
    h.choose_spec.2.2.2.2.2 _ "Quest already completed" rfl rfl (by decide)⟩

/-! ## Verification flow: quiz answers stay aligned with the questions -/

theorem arrayAssign_length_of_lt (xs : List (Option String)) (i : Nat) (v : String)
    (h : i < xs.length) : (arrayAssign xs i v).length = xs.length := by
  simp [arrayAssign, h]

theorem QuestBoard.aligned_init : QuestBoard.AnswersAligned QuestBoard.init := by
  intro qs h
  simp [QuestBoard.init] at h

theorem QuestBoard.aligned_generateQuiz (r : Fetched QuizBody) (s : QuestBoardState)
    (h : QuestBoard.AnswersAligned s) :
    QuestBoard.AnswersAligned (QuestBoard.generateQuiz r s).1 := by
  unfold QuestBoard.generateQuiz
  split
  · exact h
  · cases r with
    | rejected => exact h
    | response status body =>
      by_cases hok : statusOk status = true
      · cases body with
        | none => simpa [hok] using h
        | some data =>
          intro qs hq
          simp [hok] at hq
          subst hq
          simp [hok]
      · simpa [hok] using h

theorem QuestBoard.aligned_selectAnswer (i j : Nat) (s : QuestBoardState)
    (h : QuestBoard.AnswersAligned s) :
    QuestBoard.AnswersAligned (QuestBoard.selectAnswer i j s) := by
  unfold QuestBoard.selectAnswer
  split
  · exact h
  · rename_i qs hq
    split
    · exact h
    · rename_i qn hg
      have hi : i < qs.length := by
        rcases List.get?_eq_some.mp hg with ⟨hlt, _⟩
        exact hlt
      have hlen : s.quizAnswers.length = qs.length := h qs hq
      split
      · intro qs2 hq2
        have hq3 : s.quiz = some qs2 := hq2
        rw [hq] at hq3
        injection hq3 with hq3
        subst hq3
        show (arrayAssign s.quizAnswers i (toString j)).length = qs.length
        rw [arrayAssign_length_of_lt _ _ _ (by omega)]
        exact hlen
      · exact h

theorem QuestBoard.aligned_submitQuiz (r : Fetched QuizResult) (s : QuestBoardState)
    (h : QuestBoard.AnswersAligned s) :
    QuestBoard.AnswersAligned (QuestBoard.submitQuiz r s).1 := by
  unfold QuestBoard.submitQuiz
  split
  · exact h
  · exact h
  · split
    · split
      · intro qs hq
        simp at hq
      · exact h
    · exact h

theorem QuestBoard.aligned_handlePhotoUpload (r : Fetched Unit) (s : QuestBoardState)
    (h : QuestBoard.AnswersAligned s) :
    QuestBoard.AnswersAligned (QuestBoard.handlePhotoUpload r s).1 := by
  unfold QuestBoard.handlePhotoUpload
  split
  · exact h
  · split
    · exact h
    · split
      · exact h
      · exact h

theorem QuestBoard.aligned_step (s : QuestBoardState) (a : QuestBoard.Action)
    (h : QuestBoard.AnswersAligned s) : QuestBoard.AnswersAligned (QuestBoard.step s a) := by
  cases a with
  | openVerification questId => exact h
  | setNotes text => exact h
  | setPhoto file => exact h
  | generateQuiz r => exact QuestBoard.aligned_generateQuiz r s h
  | selectAnswer i j => exact QuestBoard.aligned_selectAnswer i j s h
  | submitQuiz r => exact QuestBoard.aligned_submitQuiz r s h
  | photoUpload r => exact QuestBoard.aligned_handlePhotoUpload r s h
  | close =>
    intro qs hq
    simp [QuestBoard.step, QuestBoard.closeVerification] at hq

theorem QuestBoard.aligned_run (as : List QuestBoard.Action) (s : QuestBoardState)
    (h : QuestBoard.AnswersAligned s) : QuestBoard.AnswersAligned (QuestBoard.run s as) := by
  induction as generalizing s with
  | nil => exact h
  | cons a rest ih => exact ih (QuestBoard.step s a) (QuestBoard.aligned_step s a h)

/-- C10: in every `QuestBoard` state reached from the initial state through
`generateQuiz`, answer selection for a displayed question, `submitQuiz`
(whatever its outcome), photo upload, closing the verification modal (and
opening it, editing the notes or picking a photo), whenever a quiz is present
the length of `quizAnswers` equals the number of quiz questions. -/
theorem quizAnswers_aligned_on_reachable (as : List QuestBoard.Action)
    (qs : List QuizQuestion)
    (hq : (QuestBoard.run QuestBoard.init as).quiz = some qs) :
    (QuestBoard.run QuestBoard.init as).quizAnswers.length = qs.length :=
  QuestBoard.aligned_run as QuestBoard.init QuestBoard.aligned_init qs hq

/-- C10 at a concrete input: the sample flow ends with the sample quiz present
and two answer slots. -/
theorem quizAnswers_aligned_on_reachable_witness :
    (QuestBoard.run QuestBoard.init sampleFlow).quiz = some sampleQuiz ∧
      (QuestBoard.run QuestBoard.init sampleFlow).quizAnswers = [some "", some "2"] ∧
      (QuestBoard.run QuestBoard.init sampleFlow).quizAnswers.length = sampleQuiz.length :=
  ⟨by decide, by decide,
    quizAnswers_aligned_on_reachable sampleFlow sampleQuiz (by decide)⟩

/-! ## Verification flow: quiz submission and generation -/

theorem QuestBoard.submitQuiz_failed_state (status : Nat) (data : QuizResult)
    (s : QuestBoardState) (hst : statusOk status = true) (hp : data.passed = false) :
    QuestBoard.submitQuiz (.response status (some data)) s =
      ({ s with loading := false },
        [.request "POST" "/verification/quiz/submit",
          .toastError ("Quiz failed. Score: " ++ toString data.score ++ "/" ++
            toString data.total ++ ". Try again!")]) := by
  simp [QuestBoard.submitQuiz, hst, hp]

/-- C11: for every answers sequence that contains at least one unfilled
(empty-string) slot, the Submit Quiz button is disabled, so a submission is
refused locally: whatever the server would answer, no request (no event at
all) is issued and the `QuestBoard` state is unchanged. -/
theorem submitQuiz_refused_with_empty_slot (r : Fetched QuizResult) (s : QuestBoardState)
    (h : some "" ∈ s.quizAnswers) :
    QuestBoard.submitQuizDisabled s = true ∧ QuestBoard.clickSubmitQuiz r s = (s, []) := by
  have hd : QuestBoard.submitQuizDisabled s = true := by
    unfold QuestBoard.submitQuizDisabled
    have : s.quizAnswers.any (fun a => decide (a = some "")) = true :=
      List.any_eq_true.mpr ⟨some "", h, by simp⟩
    simp [this]
  exact ⟨hd, by simp [QuestBoard.clickSubmitQuiz, hd]⟩

/-- C11 at a concrete input: the sample quiz with only its second question
answered. -/
theorem submitQuiz_refused_with_empty_slot_witness :
    some "" ∈ samplePartlyAnswered.quizAnswers ∧
      QuestBoard.clickSubmitQuiz (.response 200 (some samplePassed)) samplePartlyAnswered =
        (samplePartlyAnswered, []) :=
  ⟨by decide,
    (submitQuiz_refused_with_empty_slot (.response 200 (some samplePassed))
      samplePartlyAnswered (by decide)).2⟩

/-- C12: for every `submitQuiz` response with 2xx status and `passed = false`,
the verification session is untouched: `showVerification`, `quiz`, `notes`,
`photo` and `quizAnswers` keep their values (only `loading` ends false), the
only event after the request is one error notification carrying score and
total, the submit button is disabled afterwards only if an answer slot is
empty, and submitting the same answers again, any number of times, gives the
same state. -/
theorem submitQuiz_failed_keeps_session (status : Nat) (data : QuizResult)
    (s : QuestBoardState) (hst : 200 ≤ status ∧ status ≤ 299) (hp : data.passed = false) :
    (QuestBoard.submitQuiz (.response status (some data)) s).1.showVerification =
        s.showVerification ∧
      (QuestBoard.submitQuiz (.response status (some data)) s).1.quiz = s.quiz ∧
      (QuestBoard.submitQuiz (.response status (some data)) s).1.notes = s.notes ∧
      (QuestBoard.submitQuiz (.response status (some data)) s).1.photo = s.photo ∧
      (QuestBoard.submitQuiz (.response status (some data)) s).1.quizAnswers = s.quizAnswers ∧
      (QuestBoard.submitQuiz (.response status (some data)) s).2 =
        [.request "POST" "/verification/quiz/submit",
          .toastError ("Quiz failed. Score: " ++ toString data.score ++ "/" ++
            toString data.total ++ ". Try again!")] ∧
      QuestBoard.submitQuizDisabled (QuestBoard.submitQuiz (.response status (some data)) s).1 =
        s.quizAnswers.any (fun a => decide (a = some "")) ∧
      ∀ n : Nat,
        (fun t => (QuestBoard.submitQuiz (.response status (some data)) t).1)^[n + 1] s =
          (QuestBoard.submitQuiz (.response status (some data)) s).1 := by
  have hok := statusOk_of_range status hst
  have hstep := fun t => QuestBoard.submitQuiz_failed_state status data t hok hp
  refine ⟨by rw [hstep], by rw [hstep], by rw [hstep], by rw [hstep], by rw [hstep],
    by rw [hstep], by rw [hstep]; simp [QuestBoard.submitQuizDisabled], ?_⟩
  intro n
  induction n with
  | zero => rfl
  | succ k ih =>
    rw [Function.iterate_succ_apply', ih, hstep, hstep]

/-- C12 at a concrete input: the sample session, status 200, score 1 of 2,
submitted three times. -/
theorem submitQuiz_failed_keeps_session_witness :
    (200 ≤ 200 ∧ 200 ≤ 299) ∧ sampleFailed.passed = false ∧
      (QuestBoard.submitQuiz (.response 200 (some sampleFailed)) sampleVerification).1.quizAnswers =
        [some "1", some "2"] ∧
      (fun t => (QuestBoard.submitQuiz (.response 200 (some sampleFailed)) t).1)^[3]
          sampleVerification =
        (QuestBoard.submitQuiz (.response 200 (some sampleFailed)) sampleVerification).1 :=
  have h := submitQuiz_failed_keeps_session 200 sampleFailed sampleVerification
    (by decide) rfl
  ⟨by decide, rfl, h.2.2.2.2.1, h.2.2.2.2.2.2.2 2⟩

theorem QuestBoard.submitQuiz_passed_state (status : Nat) (data : QuizResult)
    (s : QuestBoardState) (hst : statusOk status = true) (hp : data.passed = true) :
    QuestBoard.submitQuiz (.response status (some data)) s =
      ({ s with loading := false, showVerification := none, quiz := none, notes := "" },
        [.request "POST" "/verification/quiz/submit",
          .toastSuccess ("Quiz passed! Score: " ++ toString data.score ++ "/" ++
            toString data.total)]) := by
  simp [QuestBoard.submitQuiz, hst, hp]

/-- C13, evaluated on the sample session (quest 7, `proof.jpg` picked, notes
typed, quiz answered): a passed submission resets `showVerification`, `quiz`
and `notes` but leaves the picked photo in place, whereas the Close button
resets the photo too; when the modal is opened again for quest 8 the Upload
Photo button is therefore enabled and sends the stale file. -/
theorem submitQuiz_passed_keeps_photo :
    (QuestBoard.submitQuiz (.response 200 (some samplePassed)) sampleVerification).1.showVerification =
        none ∧
      (QuestBoard.submitQuiz (.response 200 (some samplePassed)) sampleVerification).1.quiz =
        none ∧
      (QuestBoard.submitQuiz (.response 200 (some samplePassed)) sampleVerification).1.notes =
        "" ∧
      (QuestBoard.submitQuiz (.response 200 (some samplePassed)) sampleVerification).1.photo =
        some { name := "proof.jpg" } ∧
      (QuestBoard.submitQuiz (.response 200 (some samplePassed)) sampleVerification).1.photo ≠
        QuestBoard.init.photo ∧
      (QuestBoard.closeVerification sampleVerification).photo = QuestBoard.init.photo ∧
      QuestBoard.photoUploadDisabled
          (QuestBoard.openVerification 8
            (QuestBoard.submitQuiz (.response 200 (some samplePassed)) sampleVerification).1) =
        false ∧
      (QuestBoard.handlePhotoUpload (.response 200 (some ()))
          (QuestBoard.openVerification 8
            (QuestBoard.submitQuiz (.response 200 (some samplePassed)) sampleVerification).1)).2 =
        [.request "POST" "/verification/photo",
          .toastSuccess "Photo uploaded! Quest ready to complete."] := by
  decide

/-- C14: on a successful `generateQuiz` response carrying `n` questions (the
call is made, so the notes are non-empty), for every `n` including 0, `quiz`
is set to the received questions in their received order and `quizAnswers` to
exactly `n` empty-string placeholders, one per question position. -/
theorem generateQuiz_sets_quiz_and_placeholders (status : Nat) (data : QuizBody)
    (s : QuestBoardState) (hn : s.notes ≠ "") (hst : 200 ≤ status ∧ status ≤ 299) :
    (QuestBoard.generateQuiz (.response status (some data)) s).1.quiz = some data.questions ∧
      (QuestBoard.generateQuiz (.response status (some data)) s).1.quizAnswers =
        List.replicate data.questions.length (some "") ∧
      (QuestBoard.generateQuiz (.response status (some data)) s).1.quizAnswers.length =
        data.questions.length ∧
      ∀ i, i < data.questions.length →
        (QuestBoard.generateQuiz (.response status (some data)) s).1.quizAnswers.get? i =
          some (some "") := by
  have hok := statusOk_of_range status hst
  have hq : (QuestBoard.generateQuiz (.response status (some data)) s).1.quizAnswers =
      List.replicate data.questions.length (some "") := by
    simp [QuestBoard.generateQuiz, hn, hok]
  refine ⟨by simp [QuestBoard.generateQuiz, hn, hok], hq, by rw [hq]; simp, ?_⟩
  intro i hi
  rw [hq]
  simp [List.getElem?_replicate, hi]

/-- C14 at a concrete input: the sample quiz of two questions, status 200. -/
theorem generateQuiz_sets_quiz_and_placeholders_witness :
    sampleVerification.notes ≠ "" ∧ (200 ≤ 200 ∧ 200 ≤ 299) ∧
      (QuestBoard.generateQuiz (.response 200 (some { questions := sampleQuiz }))
          sampleVerification).1.quizAnswers = [some "", some ""] :=
  ⟨by decide, by decide,
    (generateQuiz_sets_quiz_and_placeholders 200 { questions := sampleQuiz } sampleVerification
      (by decide) (by decide)).2.1⟩

/-! ## Local validation, photo upload, routes, shop -/

/-- C15: each locally validated operation invoked with its required input
missing (`AvatarCreation.handleSubmit` with no avatar selected,
`handlePhotoUpload` with no photo, `generateQuiz` with empty notes) produces
exactly one event, an error notification: no network request is issued and
the state, `loading` included, is unchanged, whatever the server would
answer. -/
theorem missing_input_refused_locally {β γ : Type} (ra : Fetched β) (rp : Fetched γ)
    (rq : Fetched QuizBody) (a : AvatarCreationState) (q1 q2 : QuestBoardState)
    (h1 : a.selected = none) (h2 : q1.photo = none) (h3 : q2.notes = "") :
    AvatarCreation.handleSubmit ra a = (a, [.toastError "Please select an avatar"]) ∧
      QuestBoard.handlePhotoUpload rp q1 = (q1, [.toastError "Please select a photo"]) ∧
      QuestBoard.generateQuiz rq q2 = (q2, [.toastError "Please enter your study notes"]) := by
  refine ⟨?_, ?_, ?_⟩
  · simp [AvatarCreation.handleSubmit, h1]
  · simp [QuestBoard.handlePhotoUpload, h2]
  · simp [QuestBoard.generateQuiz, h3]

/-- C15 at a concrete input: the initial states, where nothing is selected,
picked or typed, with a server that would answer 200. -/
theorem missing_input_refused_locally_witness :
    AvatarCreation.init.selected = none ∧ QuestBoard.init.photo = none ∧
      QuestBoard.init.notes = "" ∧
      AvatarCreation.handleSubmit (.response 200 (some ())) AvatarCreation.init =
        (AvatarCreation.init, [.toastError "Please select an avatar"]) :=
  ⟨rfl, rfl, rfl,
    (missing_input_refused_locally (.response 200 (some ())) (.response 200 (some ()))
      (.response 200 (some { questions := sampleQuiz })) AvatarCreation.init QuestBoard.init
      QuestBoard.init rfl rfl rfl).1⟩

/-- C16: after `handlePhotoUpload` with a selected photo, a 2xx response
resets `showVerification` and `photo` to absent; on a non-2xx response or a
network failure the modal stays open: `showVerification` (and the photo) are
unchanged. -/
theorem photoUpload_clears_only_on_success {β : Type} (p : Photo) (s : QuestBoardState)
    (h : s.photo = some p) :
    (∀ (status : Nat) (body : Option β), 200 ≤ status ∧ status ≤ 299 →
      (QuestBoard.handlePhotoUpload (.response status body) s).1.showVerification = none ∧
        (QuestBoard.handlePhotoUpload (.response status body) s).1.photo = none) ∧
    (∀ (status : Nat) (body : Option β), ¬ (200 ≤ status ∧ status ≤ 299) →
      (QuestBoard.handlePhotoUpload (.response status body) s).1.showVerification =
          s.showVerification ∧
        (QuestBoard.handlePhotoUpload (.response status body) s).1.photo = s.photo) ∧
    (QuestBoard.handlePhotoUpload (Fetched.rejected : Fetched β) s).1.showVerification =
        s.showVerification ∧
      (QuestBoard.handlePhotoUpload (Fetched.rejected : Fetched β) s).1.photo = s.photo := by
  refine ⟨?_, ?_, ?_⟩
  · intro status body hst
    simp [QuestBoard.handlePhotoUpload, h, statusOk_of_range status hst]
  · intro status body hst
    simp [QuestBoard.handlePhotoUpload, h, statusOk_false_of_not status hst]
  · simp [QuestBoard.handlePhotoUpload, h]

/-- C16 at a concrete input: the sample session with `proof.jpg` picked;
status 200 closes the modal, status 500 leaves it open on quest 7. -/
theorem photoUpload_clears_only_on_success_witness :
    sampleVerification.photo = some { name := "proof.jpg" } ∧
      (QuestBoard.handlePhotoUpload (.response 200 (some ())) sampleVerification).1.showVerification =
        none ∧
      (QuestBoard.handlePhotoUpload (.response 500 (some ())) sampleVerification).1.showVerification =
        some 7 :=
  have h := @photoUpload_clears_only_on_success Unit { name := "proof.jpg" }
    sampleVerification rfl
  ⟨rfl, (h.1 200 (some ()) (by decide)).1, (h.2.1 500 (some ()) (by decide)).1⟩

/-- C17, evaluated on a user without avatar: after `handleAuth` stores that
user, resolving the path `/` redirects to `/dashboard` and ends at the
dashboard, not at avatar creation; and so does it for every user. -/
theorem login_without_avatar_lands_on_dashboard :
    sampleUser.avatar = none ∧
      (App.handleAuth "abc" sampleUser (App.init [])).user = some sampleUser ∧
      App.routeElement (some sampleUser) "/" = some (.navigate "/dashboard") ∧
      App.resolve 3 (some sampleUser) "/" = some .dashboard ∧
      App.resolve 3 (some sampleUser) "/" ≠ some .avatarCreation ∧
      ∀ u : User, App.resolve 3 (some u) "/" = some .dashboard := by
  refine ⟨rfl, rfl, by decide, by decide, by decide, ?_⟩
  intro u
  simp [App.resolve, App.routeElement]

/-- C18: for every user gold `g` and item cost `c`, `purchaseItem` produces
exactly one notification and nothing else: the error `Not enough gold!` when
`g < c`, a success notification otherwise, so it is rejected if and only if
`g < c` and accepted when `g = c`; it issues no network request, calls no
`onUpdate` and leaves the shop state unchanged. The purchase button is
disabled exactly when `g < c`. -/
theorem purchaseItem_rejected_iff_short (user : User) (item : ShopItem) (s : ShopState) :
    (Shop.purchaseItem user item s).1 = s ∧
      (Shop.purchaseItem user item s).2 =
        (if user.gold < item.cost then [.toastError "Not enough gold!"]
         else [.toastSuccess ("Purchased " ++ item.name ++ "! (Feature coming soon)")]) ∧
      ((Shop.purchaseItem user item s).2 = [.toastError "Not enough gold!"] ↔
        user.gold < item.cost) ∧
      (((Shop.purchaseItem user item s).2.filter Event.isToastSuccess = []) ↔
        user.gold < item.cost) ∧
      (user.gold = item.cost →
        (Shop.purchaseItem user item s).2 =
          [.toastSuccess ("Purchased " ++ item.name ++ "! (Feature coming soon)")]) ∧
      (Shop.purchaseItem user item s).2.filter Event.isRequest = [] ∧
      Event.onUpdate ∉ (Shop.purchaseItem user item s).2 ∧
      (Shop.purchaseDisabled user item = true ↔ user.gold < item.cost) := by
  by_cases h : user.gold < item.cost
  · simp [Shop.purchaseItem, Shop.purchaseDisabled, h, Event.isToastSuccess, Event.isRequest]
    omega
  · simp [Shop.purchaseItem, Shop.purchaseDisabled, h, Event.isToastSuccess, Event.isRequest]

/-- C18 at concrete inputs: gold 10 buys the item costing 10 and is refused
the item costing 50. -/
theorem purchaseItem_rejected_iff_short_witness :
    (Shop.purchaseItem sampleUser sampleItem Shop.init).2 =
        [.toastSuccess "Purchased Potion! (Feature coming soon)"] ∧
      (Shop.purchaseItem sampleUser sampleDearItem Shop.init).2 =
        [.toastError "Not enough gold!"] :=
  ⟨(purchaseItem_rejected_iff_short sampleUser sampleItem Shop.init).2.2.2.2.1 rfl,
    (purchaseItem_rejected_iff_short sampleUser sampleDearItem Shop.init).2.2.1.mpr
      (by decide)⟩

/-! ## Rejected requests: the notification text and the session -/

/-- C19, as stated, fails: a 400 response to the quest creation request that
carries the detail `Not authenticated` is reported with the fixed text
`Failed to create quest`, not with the detail. -/
theorem create_failure_ignores_detail_counterexample :
    (QuestBoard.handleCreate (.response 400 (some sampleError)) .rejected QuestBoard.init).2 =
        [.request "POST" "/quests/create", .toastError "Failed to create quest"] ∧
      Event.toastError "Not authenticated" ∉
        (QuestBoard.handleCreate (.response 400 (some sampleError)) .rejected QuestBoard.init).2 := by
  decide

/-- C19, amended: on a non-2xx response with a JSON body, the auth request and
`completeQuest` show the body's `detail` when it is a non-empty string and
their generic text (`Authentication failed`, `Failed to complete quest`)
otherwise; the avatar, createQuest, generateQuest, photo upload, generateQuiz
and submitQuiz requests show their own fixed text whatever the body carries. -/
theorem failure_texts {β : Type} (questId status : Nat) (auth : AuthBody) (comp : CompleteBody)
    (body : Option β) (quizBody : Option QuizBody) (quizResult : QuizResult)
    (l : LandingState) (d : DashboardState) (q : QuestBoardState) (a : AvatarCreationState)
    (statsRes : Fetched Stats) (questsRes : Fetched (List Quest))
    (hst : ¬ (200 ≤ status ∧ status ≤ 299)) :
    (Landing.handleSubmit (.response status (some auth)) l).2 =
        [.request "POST" (Landing.endpoint l),
          .toastError (detailOr auth.detail "Authentication failed")] ∧
      (Dashboard.completeQuest questId (.response status (some comp)) statsRes questsRes d).2 =
        [.request "POST" (Dashboard.completePath questId),
          .toastError (detailOr comp.detail "Failed to complete quest")] ∧
      (QuestBoard.completeQuest questId (.response status (some comp)) questsRes q).2 =
        [.request "POST" (Dashboard.completePath questId),
          .toastError (detailOr comp.detail "Failed to complete quest")] ∧
      (∀ (dt fallback : String), dt ≠ "" → detailOr (some dt) fallback = dt) ∧
      (∀ fallback : String, detailOr none fallback = fallback ∧
        detailOr (some "") fallback = fallback) ∧
      (a.selected ≠ none →
        (AvatarCreation.handleSubmit (.response status body) a).2 =
          [.request "PUT" "/user/avatar", .toastError "Failed to create avatar"]) ∧
      (QuestBoard.handleCreate (.response status body) questsRes q).2 =
        [.request "POST" "/quests/create", .toastError "Failed to create quest"] ∧
      (QuestBoard.generateQuest (.response status body) questsRes q).2 =
        [.request "POST" "/quests/generate", .toastError "Failed to generate quest"] ∧
      (q.photo ≠ none →
        (QuestBoard.handlePhotoUpload (.response status body) q).2 =
          [.request "POST" "/verification/photo", .toastError "Failed to upload photo"]) ∧
      (q.notes ≠ "" →
        (QuestBoard.generateQuiz (.response status quizBody) q).2 =
          [.request "POST" "/verification/quiz/generate",
            .toastError "Failed to generate quiz"]) ∧
      (QuestBoard.submitQuiz (.response status (some quizResult)) q).2 =
        [.request "POST" "/verification/quiz/submit", .toastError "Failed to submit quiz"] := by
  have hok := statusOk_false_of_not status hst
  refine ⟨?_, ?_, ?_, ?_, ?_, ?_, ?_, ?_, ?_, ?_, ?_⟩
  · simp [Landing.handleSubmit, hok]
  · simp [Dashboard.completeQuest, hok]
  · simp [QuestBoard.completeQuest, hok]
  · intro dt fallback hne
    simp [detailOr, hne]
  · intro fallback
    simp [detailOr]
  · intro hsel
    cases hs : a.selected with
    | none => exact absurd hs hsel
    | some o => simp [AvatarCreation.handleSubmit, hs, hok]
  · simp [QuestBoard.handleCreate, hok]
  · simp [QuestBoard.generateQuest, hok]
  · intro hph
    cases hs : q.photo with
    | none => exact absurd hs hph
    | some o => simp [QuestBoard.handlePhotoUpload, hs, hok]
  · intro hn
    simp [QuestBoard.generateQuiz, hn, hok]
  · simp [QuestBoard.submitQuiz, hok]

/-- C19 (amended) at a concrete input: status 400 with the detail
`Not authenticated`: the login shows the detail, the quest creation its fixed
text. -/
theorem failure_texts_witness :
    ¬ (200 ≤ 400 ∧ 400 ≤ 299) ∧
      (Landing.handleSubmit
          (.response 400 (some sampleAuthError)) Landing.init).2 =
        [.request "POST" (Landing.endpoint Landing.init),
          .toastError (detailOr (some "Not authenticated") "Authentication failed")] ∧
      detailOr (some "Not authenticated") "Authentication failed" = "Not authenticated" ∧
      (QuestBoard.handleCreate (.response 400 (some sampleError)) .rejected QuestBoard.init).2 =
        [.request "POST" "/quests/create", .toastError "Failed to create quest"] :=
  have h := failure_texts 42 400 sampleAuthError sampleLevelUp
    (some sampleError) none sampleFailed Landing.init Dashboard.init QuestBoard.init
    sampleAvatarChoice .rejected .rejected (by decide)
  ⟨by decide, h.1, h.2.2.2.1 "Not authenticated" "Authentication failed" (by decide),
    h.2.2.2.2.2.2.1⟩

/-- C20, as stated, fails: a 401 response to the quest creation request of an
authenticated session leaves the session as it was, the token `abc` still
persisted and the user still present. -/
theorem unauthorized_create_keeps_session_counterexample :
    App.afterEvents (.response 401 none) sampleSession
        (QuestBoard.handleCreate (.response 401 (some sampleError)) .rejected
          QuestBoard.init).2 = sampleSession ∧
      sampleSession.storage.getItem "token" = some "abc" ∧
      sampleSession.user = some sampleUser ∧
      ¬ App.LoggedOut (App.afterEvents (.response 401 none) sampleSession
        (QuestBoard.handleCreate (.response 401 (some sampleError)) .rejected
          QuestBoard.init).2) := by
  decide

theorem Dashboard.fetchData_eq_json (statsRes : Fetched Stats)
    (questsRes : Fetched (List Quest)) (s : DashboardState) :
    Dashboard.fetchData statsRes questsRes s =
      Dashboard.fetchDataJson statsRes.shaped questsRes.shaped s := by
  cases statsRes with
  | rejected => cases questsRes <;> rfl
  | response a sb =>
    cases sb with
    | none => cases questsRes <;> rfl
    | some st =>
      cases questsRes with
      | rejected => rfl
      | response b qb => cases qb <;> rfl

theorem QuestBoard.fetchQuestsResume_eq_json (r : Fetched (List Quest))
    (s : QuestBoardState) :
    QuestBoard.fetchQuestsResume r s = QuestBoard.fetchQuestsResumeJson r.shaped s := by
  cases r with
  | rejected => rfl
  | response a body => cases body <;> rfl

theorem Profile.profile_fetchData_eq_json (statsRes : Fetched Stats)
    (questsRes : Fetched (List Quest)) (s : ProfileState) :
    Profile.fetchData statsRes questsRes s =
      Profile.fetchDataJson statsRes.shaped questsRes.shaped s := by
  cases statsRes with
  | rejected => cases questsRes <;> rfl
  | response a sb =>
    cases sb with
    | none => cases questsRes <;> rfl
    | some st =>
      cases questsRes with
      | rejected => rfl
      | response b qb => cases qb <;> rfl

theorem Shop.fetchItems_eq_json (r : Fetched (List ShopItem)) (s : ShopState) :
    Shop.fetchItems r s = Shop.fetchItemsJson r.shaped s := by
  cases r with
  | rejected => rfl
  | response a body => cases body <;> rfl

/-- What the read fetches do with the error object of a rejection, whatever
the status: the quest board and the profile store it without a toast, and
their next render throws; the dashboard stores the stats body and toasts when
the quests body has no `slice`. -/
theorem fetchers_store_error_object (status : Nat) (e1 e2 : ErrorBody)
    (q : QuestBoardState) (p : ProfileState) (d : DashboardState) :
    QuestBoard.fetchQuestsJson (.response status (some (.errorObject e1))) q =
        ({ q with quests := [], questsError := some e1 }, [.request "GET" "/quests/active"]) ∧
      QuestBoard.renderThrows
        (QuestBoard.fetchQuestsJson (.response status (some (.errorObject e1))) q).1 = true ∧
      Profile.fetchDataJson (.response status (some (.errorObject e1)))
          (.response status (some (.errorObject e2))) p =
        ({ p with stats := none, statsError := some e1, completedQuests := [],
                  completedQuestsError := some e2, loading := false },
          [.request "GET" "/user/stats", .request "GET" "/quests/completed"]) ∧
      Profile.renderThrows
        (Profile.fetchDataJson (.response status (some (.errorObject e1)))
          (.response status (some (.errorObject e2))) p).1 = true ∧
      Dashboard.fetchDataJson (.response status (some (.errorObject e1)))
          (.response status (some (.errorObject e2))) d =
        ({ d with stats := none, statsError := some e1, loading := false },
          [.request "GET" "/user/stats", .request "GET" "/quests/active",
            .toastError "Failed to load dashboard data"]) := by
  refine ⟨rfl, rfl, rfl, rfl, rfl⟩

/-- C20, amended: a non-2xx response (401 included) to an authenticated page
request (stats and active or completed quests, create, generate, complete,
photo or quiz verification, avatar), whatever JSON body it carries, logs
nobody out: no handler calls `onUpdate` or writes local storage, so what the
handler emits leaves the session (persisted token, in-memory token, user)
exactly as it was. Only the profile fetch reacts to a non-2xx response, by
removing the persisted token and the in-memory token. -/
theorem unauthorized_page_request_keeps_session {β : Type} (questId status : Nat)
    (profileRes : Fetched User) (sess : Session)
    (statsBody : Option (JsonBody Stats)) (questsBody : Option (JsonBody (List Quest)))
    (comp : Option CompleteBody) (body : Option β) (quizBody : Option QuizBody)
    (quizResult : Option QuizResult) (profileBody : Option User)
    (statsRes : Fetched Stats) (questsRes : Fetched (List Quest))
    (d : DashboardState) (p : ProfileState) (q : QuestBoardState) (a : AvatarCreationState)
    (hst : ¬ (200 ≤ status ∧ status ≤ 299)) :
    App.afterEvents profileRes sess
        (Dashboard.fetchDataJson (.response status statsBody) (.response status questsBody) d).2 =
        sess ∧
      App.afterEvents profileRes sess
        (Profile.fetchDataJson (.response status statsBody) (.response status questsBody) p).2 =
        sess ∧
      App.afterEvents profileRes sess
        (QuestBoard.fetchQuestsJson (.response status questsBody) q).2 = sess ∧
      App.afterEvents profileRes sess
        (QuestBoard.handleCreate (.response status body) questsRes q).2 = sess ∧
      App.afterEvents profileRes sess
        (QuestBoard.generateQuest (.response status body) questsRes q).2 = sess ∧
      App.afterEvents profileRes sess
        (Dashboard.completeQuest questId (.response status comp) statsRes questsRes d).2 =
        sess ∧
      App.afterEvents profileRes sess
        (QuestBoard.completeQuest questId (.response status comp) questsRes q).2 = sess ∧
      App.afterEvents profileRes sess
        (QuestBoard.handlePhotoUpload (.response status body) q).2 = sess ∧
      App.afterEvents profileRes sess
        (QuestBoard.generateQuiz (.response status quizBody) q).2 = sess ∧
      App.afterEvents profileRes sess
        (QuestBoard.submitQuiz (.response status quizResult) q).2 = sess ∧
      App.afterEvents profileRes sess
        (AvatarCreation.handleSubmit (.response status body) a).2 = sess ∧
      ((App.fetchProfile (.response status profileBody) sess).1.storage.getItem "token" = none ∧
        (App.fetchProfile (.response status profileBody) sess).1.token = none) := by
  have hok := statusOk_false_of_not status hst
  refine ⟨?_, ?_, ?_, ?_, ?_, ?_, ?_, ?_, ?_, ?_, ?_, ?_⟩
  · unfold Dashboard.fetchDataJson
    split <;> simp [Dashboard.fetchDataRequests, App.afterEvents, App.handleEvent]
  · unfold Profile.fetchDataJson
    split <;> simp [App.afterEvents, App.handleEvent]
  · unfold QuestBoard.fetchQuestsJson QuestBoard.fetchQuestsResumeJson
    split <;> simp [App.afterEvents, App.handleEvent]
  · simp [QuestBoard.handleCreate, hok, App.afterEvents, App.handleEvent]
  · simp [QuestBoard.generateQuest, hok, App.afterEvents, App.handleEvent]
  · cases comp <;> simp [Dashboard.completeQuest, hok, App.afterEvents, App.handleEvent]
  · cases comp <;> simp [QuestBoard.completeQuest, hok, App.afterEvents, App.handleEvent]
  · unfold QuestBoard.handlePhotoUpload
    split <;> simp [hok, App.afterEvents, App.handleEvent]
  · unfold QuestBoard.generateQuiz
    split <;> simp [hok, App.afterEvents, App.handleEvent]
  · cases quizResult <;> simp [QuestBoard.submitQuiz, hok, App.afterEvents, App.handleEvent]
  · unfold AvatarCreation.handleSubmit
    split <;> simp [hok, App.afterEvents, App.handleEvent]
  · simp [App.fetchProfile, hok, Storage.getItem_removeItem]

/-- C20 (amended) at a concrete input: status 401 with the error object
`Not authenticated` on the sample authenticated session; fetching the active
quests and completing quest 42 both leave the session as it was. -/
theorem unauthorized_page_request_keeps_session_witness :
    ¬ (200 ≤ 401 ∧ 401 ≤ 299) ∧
      App.afterEvents (.response 401 none) sampleSession
        (QuestBoard.fetchQuestsJson (.response 401 (some (.errorObject sampleError)))
          QuestBoard.init).2 = sampleSession ∧
      App.afterEvents (.response 401 none) sampleSession
        (Dashboard.completeQuest 42 (.response 401 (some sampleLevelUp)) .rejected .rejected
          Dashboard.init).2 = sampleSession ∧
      sampleSession.token = some "abc" :=
  have h := @unauthorized_page_request_keeps_session Unit 42 401 (.response 401 none)
    sampleSession (some (.errorObject sampleError)) (some (.errorObject sampleError))
    (some sampleLevelUp) none none none none .rejected .rejected
    Dashboard.init Profile.init QuestBoard.init AvatarCreation.init (by decide)
  ⟨by decide, h.2.2.1, h.2.2.2.2.2.1, rfl⟩

/-! ## Quest generation and creation: re-fetch only on success -/

theorem QuestBoard.generateQuest_failed {β : Type} (r : Fetched β)
    (questsRes : Fetched (List Quest)) (s : QuestBoardState) (h : r.failed = true) :
    (QuestBoard.generateQuest r questsRes s).1 = { s with loading := false } ∧
      Event.request "GET" "/quests/active" ∉ (QuestBoard.generateQuest r questsRes s).2 := by
  cases r with
  | rejected => simp [QuestBoard.generateQuest]
  | response status body =>
    have hok : statusOk status = false := by simpa [Fetched.failed] using h
    simp [QuestBoard.generateQuest, hok]

theorem QuestBoard.generateQuest_failed_run {β : Type} (questsRes : Fetched (List Quest))
    (rs : List (Fetched β)) (s : QuestBoardState) (h : ∀ r ∈ rs, r.failed = true) :
    (rs.foldl (fun t r => (QuestBoard.generateQuest r questsRes t).1) s).quests = s.quests := by
  induction rs generalizing s with
  | nil => rfl
  | cons r rest ih =>
    have hr := (QuestBoard.generateQuest_failed r questsRes s (h r (by simp))).1
    have hrest : ∀ x ∈ rest, x.failed = true := fun x hx => h x (by simp [hx])
    simp only [List.foldl_cons]
    rw [ih _ hrest, hr]

/-- C21: when `generateQuest` fails (non-2xx response or network failure) the
local active-quest list is unchanged and no re-fetch of the active quests is
issued, so after any number of failed attempts in a row the list, hence its
length, is what it was; a re-fetch is issued exactly on a 2xx response. -/
theorem generateQuest_failure_keeps_quests {β : Type} (r : Fetched β)
    (questsRes : Fetched (List Quest)) (rs : List (Fetched β)) (s : QuestBoardState)
    (hr : r.failed = true) (hrs : ∀ x ∈ rs, x.failed = true) :
    (QuestBoard.generateQuest r questsRes s).1.quests = s.quests ∧
      Event.request "GET" "/quests/active" ∉ (QuestBoard.generateQuest r questsRes s).2 ∧
      (rs.foldl (fun t x => (QuestBoard.generateQuest x questsRes t).1) s).quests = s.quests ∧
      (rs.foldl (fun t x => (QuestBoard.generateQuest x questsRes t).1) s).quests.length =
        s.quests.length ∧
      ∀ x : Fetched β,
        Event.request "GET" "/quests/active" ∈ (QuestBoard.generateQuest x questsRes s).2 ↔
          ∃ status body, x = .response status body ∧ 200 ≤ status ∧ status ≤ 299 := by
  have h1 := QuestBoard.generateQuest_failed r questsRes s hr
  have h2 := QuestBoard.generateQuest_failed_run questsRes rs s hrs
  refine ⟨by rw [h1.1], h1.2, h2, by rw [h2], ?_⟩
  intro x
  cases x with
  | rejected => simp [QuestBoard.generateQuest]
  | response status body =>
    by_cases hst : 200 ≤ status ∧ status ≤ 299
    · have hok := statusOk_of_range status hst
      simp [QuestBoard.generateQuest, hok, hst]
    · have hok := statusOk_false_of_not status hst
      simp [QuestBoard.generateQuest, hok]
      intro h200
      have : ¬ status ≤ 299 := fun h299 => hst ⟨h200, h299⟩
      omega

/-- C21 at a concrete input: on the sample board a 500 response, then a
rejected fetch and another 500 leave the one active quest in place. -/
theorem generateQuest_failure_keeps_quests_witness :
    (Fetched.response 500 (some ()) : Fetched Unit).failed = true ∧
      ([Fetched.rejected, Fetched.response 500 (some ())].foldl
        (fun t x => (QuestBoard.generateQuest x (.response 200 (some [])) t).1)
        sampleBoard).quests = [sampleQuest] :=
  ⟨by decide,
    (generateQuest_failure_keeps_quests (.response 500 (some ())) (.response 200 (some []))
      [Fetched.rejected, Fetched.response 500 (some ())] sampleBoard (by decide)
      (by decide)).2.2.1⟩

/-- C22: on a 2xx createQuest response `handleCreate` does not write the quest
list itself (the list afterwards is what the one re-fetch it issues yields:
the fetched list, or the old list if that re-fetch fails), issues exactly one
`GET /quests/active`, hides the form and resets `formData` to its defaults; on
a non-2xx response or a network failure the quest list, `formData` and
`showCreate` are unchanged and no re-fetch is issued. -/
theorem handleCreate_refetches_only_on_success {β : Type} (status : Nat) (body : Option β)
    (r : Fetched β) (questsRes : Fetched (List Quest)) (s : QuestBoardState)
    (hst : 200 ≤ status ∧ status ≤ 299) (hr : r.failed = true) :
    ((QuestBoard.handleCreate (.response status body) questsRes s).1.quests =
        (match questsRes with
          | .response _ (some data) => data
          | _ => s.quests) ∧
      ((QuestBoard.handleCreate (.response status body) questsRes s).2.filter
        (fun e => decide (e = .request "GET" "/quests/active"))).length = 1 ∧
      (QuestBoard.handleCreate (.response status body) questsRes s).1.showCreate = false ∧
      (QuestBoard.handleCreate (.response status body) questsRes s).1.formData =
        QuestBoard.defaultForm) ∧
    ((QuestBoard.handleCreate r questsRes s).1.quests = s.quests ∧
      (QuestBoard.handleCreate r questsRes s).1.formData = s.formData ∧
      (QuestBoard.handleCreate r questsRes s).1.showCreate = s.showCreate ∧
      Event.request "GET" "/quests/active" ∉ (QuestBoard.handleCreate r questsRes s).2) := by
  have hok := statusOk_of_range status hst
  constructor
  · cases questsRes with
    | rejected => simp [QuestBoard.handleCreate, hok, QuestBoard.fetchQuestsResume]
    | response st dataOpt =>
      cases dataOpt with
      | none => simp [QuestBoard.handleCreate, hok, QuestBoard.fetchQuestsResume]
      | some data => simp [QuestBoard.handleCreate, hok, QuestBoard.fetchQuestsResume]
  · cases r with
    | rejected => simp [QuestBoard.handleCreate]
    | response st b =>
      have hno : statusOk st = false := by simpa [Fetched.failed] using hr
      simp [QuestBoard.handleCreate, hno]

/-- C22 at a concrete input: on the sample board, status 201 with a re-fetch
answering the empty list, and status 422. -/
theorem handleCreate_refetches_only_on_success_witness :
    (200 ≤ 201 ∧ 201 ≤ 299) ∧ (Fetched.response 422 (some ()) : Fetched Unit).failed = true ∧
      (QuestBoard.handleCreate (.response 201 (some ())) (.response 200 (some []))
        sampleBoard).1.showCreate = false ∧
      (QuestBoard.handleCreate (Fetched.response 422 (some ())) (.response 200 (some []))
        sampleBoard).1.quests = [sampleQuest] :=
  have h := handleCreate_refetches_only_on_success 201 (some ()) (.response 422 (some ()))
    (.response 200 (some [])) sampleBoard (by decide) (by decide)
  ⟨by decide, by decide, h.1.2.2.1, h.2.1⟩

/-! ## Session store: start without token, login, token invariant -/

theorem App.fetchProfile_requests (r : Fetched User) (s : Session) :
    (App.fetchProfile r s).2.filter Event.isRequest = [.request "GET" "/user/profile"] := by
  unfold App.fetchProfile
  split
  · simp [Event.isRequest]
  · split
    · split <;> simp [Event.isRequest]
    · simp [Event.isRequest]

/-- C24: when no token is persisted at start, mounting `App` ends with the
user absent, the token absent and loading false, local storage untouched, and
no event at all: no network request is issued, whatever a probe would have
answered. -/
theorem mount_without_token_is_anonymous (ls : Storage) (r r2 : Fetched User)
    (h : ls.getItem "token" = none) :
    App.mount ls r r2 =
      ({ storage := ls, user := none, token := none, loading := false }, []) := by
  simp [App.mount, App.thenTokenEffect, App.tokenEffect, App.init, h, tokenTruthy]

/-- C24 at a concrete input: empty local storage, a server that would answer
200. -/
theorem mount_without_token_is_anonymous_witness :
    Storage.getItem [] "token" = none ∧
      App.mount [] (.response 200 (some sampleUser)) .rejected =
        ({ storage := [], user := none, token := none, loading := false }, []) :=
  ⟨rfl, mount_without_token_is_anonymous [] (.response 200 (some sampleUser)) .rejected rfl⟩

/-- C25, as stated, fails: logging in on the anonymous session with the token
`abc` changes `token`, so the effect on `[token]` runs `fetchProfile` and a
`GET /user/profile` request is issued. -/
theorem login_triggers_probe_counterexample :
    sampleAnonymous.token = none ∧
      (App.login "abc" sampleUser (.response 200 (some sampleUser)) sampleAnonymous).2 =
        [.request "GET" "/user/profile"] := by
  decide

/-- C25, amended: `handleAuth` itself issues no request, but login triggers
the effect on `[token]`: whenever it changes the in-memory token to a
non-empty `t`, that effect runs `fetchProfile` on the state `handleAuth` left,
which issues exactly one request, `GET /user/profile`; no event at all is
produced when `t` is the token already in memory or `t` is empty. -/
theorem login_probes_on_token_change (t : String) (u : User) (r2 : Fetched User)
    (s : Session) :
    (s.token ≠ some t → t ≠ "" →
      (App.login t u r2 s).1 = (App.fetchProfile r2 (App.handleAuth t u s)).1 ∧
      (App.login t u r2 s).2 = (App.fetchProfile r2 (App.handleAuth t u s)).2 ∧
      (App.login t u r2 s).2.filter Event.isRequest = [.request "GET" "/user/profile"]) ∧
    (s.token = some t → App.login t u r2 s = (App.handleAuth t u s, [])) ∧
    (t = "" → (App.login t u r2 s).2 = []) := by
  refine ⟨?_, ?_, ?_⟩
  · intro hne ht
    have hne2 : ¬ (some t = s.token) := fun h => hne h.symm
    have hl : App.login t u r2 s =
        ((App.fetchProfile r2 (App.handleAuth t u s)).1,
          (App.fetchProfile r2 (App.handleAuth t u s)).2) := by
      simp [App.login, App.thenTokenEffect, App.tokenEffect, App.handleAuth, hne2,
        tokenTruthy, ht]
    rw [hl]
    exact ⟨rfl, rfl, App.fetchProfile_requests r2 _⟩
  · intro h
    simp [App.login, App.thenTokenEffect, App.handleAuth, h]
  · intro ht
    subst ht
    by_cases h : some "" = s.token
    · simp [App.login, App.thenTokenEffect, App.handleAuth, h]
    · simp [App.login, App.thenTokenEffect, App.tokenEffect, App.handleAuth, h, tokenTruthy]

/-- C25 (amended) at a concrete input: login with `abc` on the anonymous
session. -/
theorem login_probes_on_token_change_witness :
    sampleAnonymous.token ≠ some "abc" ∧ "abc" ≠ "" ∧
      (App.login "abc" sampleUser .rejected sampleAnonymous).2.filter Event.isRequest =
        [.request "GET" "/user/profile"] :=
  ⟨by decide, by decide,
    ((login_probes_on_token_change "abc" sampleUser .rejected sampleAnonymous).1
      (by decide) (by decide)).2.2⟩

theorem App.token_persisted_step (s : Session) (a : App.Action)
    (h : s.token = s.storage.getItem "token") :
    (App.step s a).token = (App.step s a).storage.getItem "token" := by
  cases a with
  | auth t u => simp [App.step, App.handleAuth, Storage.getItem_setItem]
  | logout => simp [App.step, App.handleLogout, Storage.getItem_removeItem]
  | profile r =>
    cases r with
    | rejected => simpa [App.step, App.fetchProfile] using h
    | response status body =>
      by_cases hok : statusOk status = true
      · cases body with
        | none => simpa [App.step, App.fetchProfile, hok] using h
        | some userData => simpa [App.step, App.fetchProfile, hok] using h
      · simp [App.step, App.fetchProfile, hok, Storage.getItem_removeItem]

theorem App.token_persisted_run (as : List App.Action) (s : Session)
    (h : s.token = s.storage.getItem "token") :
    (App.run s as).token = (App.run s as).storage.getItem "token" := by
  induction as generalizing s with
  | nil => exact h
  | cons a rest ih => exact ih (App.step s a) (App.token_persisted_step s a h)

/-- C27: in every session state reached from the initial state (whose token
is read from local storage) through `handleAuth`, `handleLogout` and any
outcome of `fetchProfile`, the in-memory token equals what is persisted under
the `token` key: both absent, or both the same string. -/
theorem token_matches_storage_on_reachable (ls : Storage) (as : List App.Action) :
    (App.run (App.init ls) as).token = (App.run (App.init ls) as).storage.getItem "token" :=
  App.token_persisted_run as (App.init ls) rfl

/-! ## Routes -/

/-- C28: for each of the seven declared paths, three route lookups (at most
two `Navigate` hops) reach a page: with the user absent every path ends at
`Landing`; with the user present no path ends at `Landing`, `/` ends at the
dashboard, `/avatar-creation` ends at avatar creation exactly when the avatar
is absent and at the dashboard otherwise, and the other paths at their own
page. -/
theorem routes_resolve_within_two_hops :
    (∀ path ∈ App.declaredPaths, App.resolve 3 none path = some .landing) ∧
    (∀ (u : User), ∀ path ∈ App.declaredPaths,
      ∃ p, App.resolve 3 (some u) path = some p ∧ p ≠ .landing) ∧
    (∀ u : User, App.resolve 3 (some u) "/" = some .dashboard) ∧
    (∀ u : User, u.avatar = none →
      App.resolve 3 (some u) "/avatar-creation" = some .avatarCreation) ∧
    (∀ u : User, u.avatar ≠ none →
      App.resolve 3 (some u) "/avatar-creation" = some .dashboard) ∧
    (∀ u : User, App.resolve 3 (some u) "/dashboard" = some .dashboard ∧
      App.resolve 3 (some u) "/quests" = some .questBoard ∧
      App.resolve 3 (some u) "/profile" = some .profile ∧
      App.resolve 3 (some u) "/leaderboard" = some .leaderboard ∧
      App.resolve 3 (some u) "/shop" = some .shop) ∧
    App.resolve 2 none "/avatar-creation" = none := by
  refine ⟨?_, ?_, ?_, ?_, ?_, ?_, ?_⟩
  · decide
  · intro u path hp
    simp only [App.declaredPaths, List.mem_cons, List.mem_singleton, List.not_mem_nil,
      or_false] at hp
    rcases hp with h | h | h | h | h | h | h <;> subst h
    · exact ⟨.dashboard, by simp [App.resolve, App.routeElement], by decide⟩
    · cases ha : u.avatar with
      | none => exact ⟨.avatarCreation, by simp [App.resolve, App.routeElement, ha], by decide⟩
      | some av => exact ⟨.dashboard, by simp [App.resolve, App.routeElement, ha], by decide⟩
    · exact ⟨.dashboard, by simp [App.resolve, App.routeElement], by decide⟩
    · exact ⟨.questBoard, by simp [App.resolve, App.routeElement], by decide⟩
    · exact ⟨.profile, by simp [App.resolve, App.routeElement], by decide⟩
    · exact ⟨.leaderboard, by simp [App.resolve, App.routeElement], by decide⟩
    · exact ⟨.shop, by simp [App.resolve, App.routeElement], by decide⟩
  · intro u
    simp [App.resolve, App.routeElement]
  · intro u ha
    simp [App.resolve, App.routeElement, ha]
  · intro u ha
    cases hav : u.avatar with
    | none => exact absurd hav ha
    | some av => simp [App.resolve, App.routeElement, hav]
  · intro u
    simp [App.resolve, App.routeElement]
  · decide

/-! ## Dashboard: the XP bar -/

theorem Dashboard.xpPercentage_finite (st : Stats)
    (h : st.xp + st.xp_to_next_level ≠ 0) :
    Dashboard.xpPercentage (some st) =
      .finite ((st.xp : ℚ) / ((st.xp : ℚ) + (st.xp_to_next_level : ℚ)) * 100) := by
  have hq : ((st.xp : ℚ) + (st.xp_to_next_level : ℚ)) ≠ 0 := by exact_mod_cast h
  simp [Dashboard.xpPercentage, jsDiv, hq, jsTimes100]

/-- C23: for every Stats snapshot the XP-bar value is computed from that
snapshot as `xp / (xp + xp_to_next_level)` times 100 (the exact quotient
whenever the denominator is not zero); it is 0 when no snapshot is present;
and after a re-fetch it is the value of the fetched snapshot, whatever the
state before (nothing is cached). -/
theorem xpPercentage_recomputed_from_snapshot (st : Stats) (prev : DashboardState)
    (a b : Nat) (questsData : List Quest) :
    Dashboard.xpPercentage (some st) =
        jsTimes100 (jsDiv (st.xp : ℚ) ((st.xp : ℚ) + (st.xp_to_next_level : ℚ))) ∧
      (st.xp + st.xp_to_next_level ≠ 0 →
        Dashboard.xpPercentage (some st) =
          .finite ((st.xp : ℚ) / ((st.xp : ℚ) + (st.xp_to_next_level : ℚ)) * 100)) ∧
      Dashboard.xpPercentage none = .finite 0 ∧
      Dashboard.xpPercentage Dashboard.init.stats = .finite 0 ∧
      Dashboard.xpPercentage
          (Dashboard.fetchData (.response a (some st)) (.response b (some questsData)) prev).1.stats =
        Dashboard.xpPercentage (some st) := by
  refine ⟨rfl, Dashboard.xpPercentage_finite st, rfl, rfl, ?_⟩
  simp [Dashboard.fetchData]

/-! ## Dashboard: the XP bar in double arithmetic -/

theorem roundHalfEven_intCast (k : ℤ) : roundHalfEven (k : ℚ) = k := by
  simp [roundHalfEven]

theorem roundHalfEven_near (r : ℚ) (k : ℤ) (h1 : (k : ℚ) - 1 / 2 < r) (h2 : r < (k : ℚ) + 1 / 2) :
    roundHalfEven r = k := by
  unfold roundHalfEven
  by_cases hk : (k : ℚ) ≤ r
  · have hf : ⌊r⌋ = k := by
      rw [Int.floor_eq_iff]; constructor <;> linarith
    rw [hf, if_pos (by linarith)]
  · push_neg at hk
    have hf : ⌊r⌋ = k - 1 := by
      rw [Int.floor_eq_iff]; push_cast; constructor <;> linarith
    rw [hf]
    push_cast
    rw [if_neg (by linarith), if_pos (by linarith)]
    ring

theorem roundHalfEven_tie (k : ℤ) (hk : k % 2 = 0) : roundHalfEven ((k : ℚ) + 1 / 2) = k := by
  unfold roundHalfEven
  have hf : ⌊(k : ℚ) + 1 / 2⌋ = k := by
    rw [Int.floor_eq_iff]; constructor <;> linarith
  rw [hf, if_neg (by linarith), if_neg (by linarith), if_pos hk]

theorem roundHalfEven_bounds (r : ℚ) :
    (⌊r⌋ : ℤ) ≤ roundHalfEven r ∧ roundHalfEven r ≤ ⌊r⌋ + 1 := by
  unfold roundHalfEven
  split_ifs <;> constructor <;> omega

theorem roundHalfEven_mono {r s : ℚ} (h : r ≤ s) : roundHalfEven r ≤ roundHalfEven s := by
  have hfl : ⌊r⌋ ≤ ⌊s⌋ := Int.floor_mono h
  rcases lt_or_eq_of_le hfl with hlt | heq
  · have := (roundHalfEven_bounds r).2
    have := (roundHalfEven_bounds s).1
    omega
  · unfold roundHalfEven
    rw [← heq]
    split_ifs <;> first | omega | (exfalso; linarith)

theorem le_roundHalfEven {r : ℚ} {k : ℤ} (h : (k : ℚ) ≤ r) : k ≤ roundHalfEven r := by
  have := roundHalfEven_mono h
  rwa [roundHalfEven_intCast] at this

theorem roundHalfEven_le {r : ℚ} {k : ℤ} (h : r ≤ (k : ℚ)) : roundHalfEven r ≤ k := by
  have := roundHalfEven_mono h
  rwa [roundHalfEven_intCast] at this

theorem doubleUlp_pos (q : ℚ) : 0 < doubleUlp q := by
  unfold doubleUlp
  positivity

theorem roundMagnitude_zero : roundMagnitude 0 = 0 := by
  simp [roundMagnitude, roundHalfEven]

theorem roundMagnitude_nonneg {q : ℚ} (hq : 0 ≤ q) : 0 ≤ roundMagnitude q := by
  unfold roundMagnitude
  have hu := doubleUlp_pos q
  have h0 : (0 : ℤ) ≤ roundHalfEven (q / doubleUlp q) :=
    le_roundHalfEven (by simpa using div_nonneg hq (le_of_lt hu))
  have h1 : (0 : ℚ) ≤ (roundHalfEven (q / doubleUlp q) : ℚ) := by exact_mod_cast h0
  positivity

theorem doubleExponent_mono {a b : ℚ} (h0 : 0 < a) (h : a ≤ b) :
    doubleExponent a ≤ doubleExponent b :=
  max_le_max (Int.log_mono_right h0 h) le_rfl

/-- A multiple of a power of two that is at least the local spacing of the
doubles is its own rounding. -/
theorem roundMagnitude_exact (q : ℚ) (m k : ℤ) (hq : q = (2 : ℚ) ^ m * k)
    (hm : doubleExponent q - 52 ≤ m) : roundMagnitude q = q := by
  unfold roundMagnitude doubleUlp
  obtain ⟨d, hd⟩ := Int.eq_ofNat_of_zero_le (sub_nonneg.mpr hm)
  have hm2 : m = (doubleExponent q - 52) + (d : ℤ) := by omega
  have h2 : ((2 : ℚ) ^ (doubleExponent q - 52)) ≠ 0 := by positivity
  have hdiv : q / (2 : ℚ) ^ (doubleExponent q - 52) = (((2 : ℤ) ^ d * k : ℤ) : ℚ) := by
    rw [div_eq_iff h2]
    conv_lhs => rw [hq, hm2, zpow_add₀ (by norm_num : (2 : ℚ) ≠ 0), zpow_natCast]
    push_cast
    ring
  rw [hdiv, roundHalfEven_intCast, ← hdiv]
  field_simp

theorem roundMagnitude_le_top (a : ℚ) :
    roundMagnitude a ≤ (2 : ℚ) ^ (doubleExponent a + 1) := by
  have hlt : a < (2 : ℚ) ^ (Int.log 2 a + 1) := by
    exact_mod_cast Int.lt_zpow_succ_log_self (by norm_num : 1 < 2) a
  have hle : (2 : ℚ) ^ (Int.log 2 a + 1) ≤ (2 : ℚ) ^ (doubleExponent a + 1) :=
    zpow_le_zpow_right₀ (by norm_num) (by unfold doubleExponent; omega)
  have hu : (0 : ℚ) < (2 : ℚ) ^ (doubleExponent a - 52) := by positivity
  have hsplit : (2 : ℚ) ^ (doubleExponent a + 1) =
      (2 : ℚ) ^ (doubleExponent a - 52) * (((2 : ℤ) ^ 53 : ℤ) : ℚ) := by
    have : doubleExponent a + 1 = (doubleExponent a - 52) + ((53 : ℕ) : ℤ) := by omega
    rw [this, zpow_add₀ (by norm_num : (2 : ℚ) ≠ 0), zpow_natCast]
    push_cast
    ring
  have hdiv : a / (2 : ℚ) ^ (doubleExponent a - 52) ≤ (((2 : ℤ) ^ 53 : ℤ) : ℚ) := by
    rw [div_le_iff₀ hu, mul_comm, ← hsplit]
    linarith
  have hr := roundHalfEven_le hdiv
  have hr2 : (roundHalfEven (a / (2 : ℚ) ^ (doubleExponent a - 52)) : ℚ) ≤
      (((2 : ℤ) ^ 53 : ℤ) : ℚ) := by exact_mod_cast hr
  rw [hsplit]
  unfold roundMagnitude doubleUlp
  exact mul_le_mul_of_nonneg_left hr2 (le_of_lt hu)

theorem le_roundMagnitude {b : ℚ} (h0 : 0 < b) (hn : Int.log 2 b = doubleExponent b) :
    (2 : ℚ) ^ (doubleExponent b) ≤ roundMagnitude b := by
  have hle : (2 : ℚ) ^ (Int.log 2 b) ≤ b := by
    exact_mod_cast Int.zpow_log_le_self (by norm_num : 1 < 2) h0
  rw [hn] at hle
  have hu : (0 : ℚ) < (2 : ℚ) ^ (doubleExponent b - 52) := by positivity
  have hsplit : (2 : ℚ) ^ (doubleExponent b) =
      (2 : ℚ) ^ (doubleExponent b - 52) * (((2 : ℤ) ^ 52 : ℤ) : ℚ) := by
    have : doubleExponent b = (doubleExponent b - 52) + ((52 : ℕ) : ℤ) := by omega
    conv_lhs => rw [this, zpow_add₀ (by norm_num : (2 : ℚ) ≠ 0), zpow_natCast]
    push_cast
    ring
  have hdiv : (((2 : ℤ) ^ 52 : ℤ) : ℚ) ≤ b / (2 : ℚ) ^ (doubleExponent b - 52) := by
    rw [le_div_iff₀ hu, mul_comm, ← hsplit]
    exact hle
  have hr := le_roundHalfEven hdiv
  have hr2 : (((2 : ℤ) ^ 52 : ℤ) : ℚ) ≤
      (roundHalfEven (b / (2 : ℚ) ^ (doubleExponent b - 52)) : ℚ) := by exact_mod_cast hr
  rw [hsplit]
  unfold roundMagnitude doubleUlp
  exact mul_le_mul_of_nonneg_left hr2 (le_of_lt hu)

/-- Rounding to a double is monotone on the non-negative magnitudes. -/
theorem roundMagnitude_mono {a b : ℚ} (h0 : 0 ≤ a) (h : a ≤ b) :
    roundMagnitude a ≤ roundMagnitude b := by
  rcases eq_or_lt_of_le h0 with hz | hpos
  · rw [← hz, roundMagnitude_zero]
    exact roundMagnitude_nonneg (le_trans h0 h)
  · have hb : 0 < b := lt_of_lt_of_le hpos h
    rcases lt_or_eq_of_le (doubleExponent_mono hpos h) with hlt | heq
    · have hlog : Int.log 2 b = doubleExponent b := by
        have : -1022 ≤ doubleExponent a := by unfold doubleExponent; omega
        unfold doubleExponent at hlt ⊢
        omega
      calc roundMagnitude a ≤ (2 : ℚ) ^ (doubleExponent a + 1) := roundMagnitude_le_top a
        _ ≤ (2 : ℚ) ^ (doubleExponent b) := zpow_le_zpow_right₀ (by norm_num) (by omega)
        _ ≤ roundMagnitude b := le_roundMagnitude hb hlog
    · unfold roundMagnitude doubleUlp
      rw [heq]
      have hu : (0 : ℚ) < (2 : ℚ) ^ (doubleExponent b - 52) := by positivity
      have hdiv : a / (2 : ℚ) ^ (doubleExponent b - 52) ≤ b / (2 : ℚ) ^ (doubleExponent b - 52) :=
        div_le_div_of_nonneg_right h (le_of_lt hu)
      have hr : (roundHalfEven (a / (2 : ℚ) ^ (doubleExponent b - 52)) : ℚ) ≤
          (roundHalfEven (b / (2 : ℚ) ^ (doubleExponent b - 52)) : ℚ) := by
        exact_mod_cast roundHalfEven_mono hdiv
      exact mul_le_mul_of_nonneg_left hr (le_of_lt hu)

theorem doubleExponent_eq {q : ℚ} {e : ℤ} (h0 : 0 < q) (h1 : (2 : ℚ) ^ e ≤ q)
    (h2 : q < (2 : ℚ) ^ (e + 1)) (he : -1022 ≤ e) : doubleExponent q = e := by
  have a1 : e ≤ Int.log 2 q :=
    (Int.zpow_le_iff_le_log (by norm_num : 1 < 2) h0).1 (by exact_mod_cast h1)
  have a2 : Int.log 2 q < e + 1 :=
    (Int.lt_zpow_iff_log_lt (by norm_num : 1 < 2) h0).1 (by exact_mod_cast h2)
  unfold doubleExponent
  omega

theorem doubleExponent_small {q : ℚ} (h0 : 0 < q) (h2 : q < (2 : ℚ) ^ (-1021 : ℤ)) :
    doubleExponent q = -1022 := by
  have a2 : Int.log 2 q < -1021 :=
    (Int.lt_zpow_iff_log_lt (by norm_num : 1 < 2) h0).1 (by exact_mod_cast h2)
  unfold doubleExponent
  omega


theorem toDouble_of_exact {q : ℚ} (h0 : 0 ≤ q) (hq : roundMagnitude q = q)
    (hlt : q < (2 : ℚ) ^ (1024 : ℕ)) : toDouble q = .finite q := by
  unfold toDouble
  rw [if_pos h0, hq, if_pos hlt]

theorem exact_of_toDouble {q : ℚ} (h0 : 0 ≤ q) (h : toDouble q = .finite q) :
    roundMagnitude q = q ∧ q < (2 : ℚ) ^ (1024 : ℕ) := by
  unfold toDouble at h
  rw [if_pos h0] at h
  by_cases hlt : roundMagnitude q < (2 : ℚ) ^ (1024 : ℕ)
  · rw [if_pos hlt] at h
    have hq : roundMagnitude q = q := by injection h
    exact ⟨hq, hq ▸ hlt⟩
  · rw [if_neg hlt] at h
    exact absurd h (by simp)

theorem toDouble_of_le {r c : ℚ} (h0 : 0 ≤ r) (h : r ≤ c) (hc : roundMagnitude c = c)
    (hlt : c < (2 : ℚ) ^ (1024 : ℕ)) :
    toDouble r = .finite (roundMagnitude r) ∧ 0 ≤ roundMagnitude r ∧ roundMagnitude r ≤ c := by
  have hle : roundMagnitude r ≤ c := hc ▸ roundMagnitude_mono h0 h
  refine ⟨?_, roundMagnitude_nonneg h0, hle⟩
  unfold toDouble
  rw [if_pos h0, if_pos (lt_of_le_of_lt hle hlt)]

theorem roundMagnitude_int (n : ℤ) (h0 : 0 ≤ n) (h : n ≤ 2 ^ 53) :
    roundMagnitude (n : ℚ) = (n : ℚ) := by
  rcases eq_or_lt_of_le h0 with hz | hpos
  · rw [← hz]
    simpa using roundMagnitude_zero
  · have hq0 : (0 : ℚ) < (n : ℚ) := by exact_mod_cast hpos
    rcases eq_or_lt_of_le h with he | hlt
    · have hexp : doubleExponent (n : ℚ) = 53 := by
        apply doubleExponent_eq hq0 <;> first | (rw [he]; norm_num) | norm_num
      apply roundMagnitude_exact (n : ℚ) 1 (2 ^ 52)
      · rw [he]; norm_num
      · rw [hexp]; norm_num
    · have hlog : Int.log 2 (n : ℚ) < 53 :=
        (Int.lt_zpow_iff_log_lt (by norm_num : 1 < 2) hq0).1 (by
          have : (n : ℚ) < (2 : ℚ) ^ (53 : ℕ) := by exact_mod_cast hlt
          norm_num
          norm_num at this
          exact this)
      apply roundMagnitude_exact (n : ℚ) 0 n
      · simp
      · unfold doubleExponent
        omega

theorem toDouble_int (n : ℤ) (h0 : 0 ≤ n) (h : n ≤ 2 ^ 53) :
    toDouble (n : ℚ) = .finite (n : ℚ) := by
  apply toDouble_of_exact (by exact_mod_cast h0) (roundMagnitude_int n h0 h)
  have h1 : (n : ℚ) ≤ (2 : ℚ) ^ (53 : ℕ) := by exact_mod_cast h
  have h2 : (2 : ℚ) ^ (53 : ℕ) < (2 : ℚ) ^ (1024 : ℕ) := by norm_num
  linarith

theorem roundMagnitude_one : roundMagnitude 1 = 1 := by
  simpa using roundMagnitude_int 1 (by norm_num) (by norm_num)

theorem roundMagnitude_hundred : roundMagnitude 100 = 100 := by
  simpa using roundMagnitude_int 100 (by norm_num) (by norm_num)


theorem toDouble_zero : toDouble 0 = .finite 0 := by
  simpa using toDouble_int 0 (by norm_num) (by norm_num)

theorem toDouble_one : toDouble 1 = .finite 1 := by
  simpa using toDouble_int 1 (by norm_num) (by norm_num)

theorem toDouble_hundred : toDouble 100 = .finite 100 := by
  simpa using toDouble_int 100 (by norm_num) (by norm_num)

/-- The XP percentage when the sum `xp + xp_to_next_level` overflows. -/
theorem Dashboard.xpPercentageDouble_of_overflow (st : Stats)
    (hxd : toDouble (st.xp : ℚ) = .finite (st.xp : ℚ))
    (hnd : toDouble (st.xp_to_next_level : ℚ) = .finite (st.xp_to_next_level : ℚ))
    (hov : toDouble ((st.xp : ℚ) + (st.xp_to_next_level : ℚ)) = .posInf) :
    Dashboard.xpPercentageDouble (some st) = .finite 0 := by
  simp only [Dashboard.xpPercentageDouble, hxd, hnd, jsAddDouble, hov, jsDivDouble,
    jsTimes100Double, zero_mul, toDouble_zero]

/-- The XP percentage when the sum `xp + xp_to_next_level` is a finite double:
the rounded product of 100 and the rounded quotient. -/
theorem Dashboard.xpPercentageDouble_of_finite (st : Stats) (hx : 0 ≤ st.xp)
    (hn : 0 ≤ st.xp_to_next_level) (hpos : 0 < st.xp + st.xp_to_next_level)
    (hxd : toDouble (st.xp : ℚ) = .finite (st.xp : ℚ))
    (hnd : toDouble (st.xp_to_next_level : ℚ) = .finite (st.xp_to_next_level : ℚ))
    (hfin : roundMagnitude ((st.xp : ℚ) + (st.xp_to_next_level : ℚ)) < (2 : ℚ) ^ (1024 : ℕ)) :
    Dashboard.xpPercentageDouble (some st) =
        .finite (roundMagnitude (roundMagnitude ((st.xp : ℚ) /
          roundMagnitude ((st.xp : ℚ) + (st.xp_to_next_level : ℚ))) * 100)) ∧
      0 < roundMagnitude ((st.xp : ℚ) + (st.xp_to_next_level : ℚ)) ∧
      0 ≤ (st.xp : ℚ) / roundMagnitude ((st.xp : ℚ) + (st.xp_to_next_level : ℚ)) ∧
      (st.xp : ℚ) / roundMagnitude ((st.xp : ℚ) + (st.xp_to_next_level : ℚ)) ≤ 1 := by
  have hX : (0 : ℚ) ≤ (st.xp : ℚ) := by exact_mod_cast hx
  have hY : (0 : ℚ) ≤ (st.xp_to_next_level : ℚ) := by exact_mod_cast hn
  have hS : (0 : ℚ) < (st.xp : ℚ) + (st.xp_to_next_level : ℚ) := by exact_mod_cast hpos
  have hXe := (exact_of_toDouble hX hxd).1
  have hYe := (exact_of_toDouble hY hnd).1
  have hXs : (st.xp : ℚ) ≤ roundMagnitude ((st.xp : ℚ) + (st.xp_to_next_level : ℚ)) := by
    have := roundMagnitude_mono hX (by linarith : (st.xp : ℚ) ≤ (st.xp : ℚ) + (st.xp_to_next_level : ℚ))
    rwa [hXe] at this
  have hYs : (st.xp_to_next_level : ℚ) ≤
      roundMagnitude ((st.xp : ℚ) + (st.xp_to_next_level : ℚ)) := by
    have := roundMagnitude_mono hY
      (by linarith : (st.xp_to_next_level : ℚ) ≤ (st.xp : ℚ) + (st.xp_to_next_level : ℚ))
    rwa [hYe] at this
  have hs : 0 < roundMagnitude ((st.xp : ℚ) + (st.xp_to_next_level : ℚ)) := by
    rcases lt_or_eq_of_le hX with h | h
    · linarith
    · have : (0 : ℚ) < (st.xp_to_next_level : ℚ) := by linarith
      linarith
  have hq0 : 0 ≤ (st.xp : ℚ) / roundMagnitude ((st.xp : ℚ) + (st.xp_to_next_level : ℚ)) :=
    div_nonneg hX (le_of_lt hs)
  have hq1 : (st.xp : ℚ) / roundMagnitude ((st.xp : ℚ) + (st.xp_to_next_level : ℚ)) ≤ 1 := by
    rw [div_le_one hs]
    exact hXs
  have hsum : toDouble ((st.xp : ℚ) + (st.xp_to_next_level : ℚ)) =
      .finite (roundMagnitude ((st.xp : ℚ) + (st.xp_to_next_level : ℚ))) := by
    unfold toDouble
    rw [if_pos (le_of_lt hS), if_pos hfin]
  have hquot := toDouble_of_le hq0 hq1 roundMagnitude_one (by norm_num)
  have hprod := toDouble_of_le
    (mul_nonneg hquot.2.1 (by norm_num : (0 : ℚ) ≤ 100))
    (by linarith [hquot.2.2] :
      roundMagnitude ((st.xp : ℚ) / roundMagnitude ((st.xp : ℚ) + (st.xp_to_next_level : ℚ))) * 100
        ≤ 100)
    roundMagnitude_hundred (by norm_num)
  refine ⟨?_, hs, hq0, hq1⟩
  simp only [Dashboard.xpPercentageDouble, hxd, hnd, jsAddDouble, hsum, jsDivDouble,
    if_neg (ne_of_gt hs), hquot.1, jsTimes100Double, hprod.1]


/-- The largest double below 1 is `1 - 2 ^ (-53)`. -/
theorem roundMagnitude_below_one :
    roundMagnitude (1 - 1 / (2 : ℚ) ^ (53 : ℕ)) = 1 - 1 / (2 : ℚ) ^ (53 : ℕ) := by
  have hexp : doubleExponent (1 - 1 / (2 : ℚ) ^ (53 : ℕ)) = -1 := by
    apply doubleExponent_eq <;> norm_num
  apply roundMagnitude_exact _ (-53) (2 ^ 53 - 1)
  · norm_num
  · rw [hexp]; norm_num

/-- One hundred times the largest double below 1 rounds to the largest double
below 100. -/
theorem roundMagnitude_below_hundred :
    roundMagnitude ((1 - 1 / (2 : ℚ) ^ (53 : ℕ)) * 100) = 100 - 1 / (2 : ℚ) ^ (46 : ℕ) := by
  have hexp : doubleExponent ((1 - 1 / (2 : ℚ) ^ (53 : ℕ)) * 100) = 6 := by
    apply doubleExponent_eq <;> norm_num
  unfold roundMagnitude doubleUlp
  rw [hexp, roundHalfEven_near _ (100 * 2 ^ 46 - 1) (by norm_num) (by norm_num)]
  norm_num

/-- The subnormal `2 ^ (-1024)` is a double. -/
theorem roundMagnitude_tiny :
    roundMagnitude (1 / (2 : ℚ) ^ (1024 : ℕ)) = 1 / (2 : ℚ) ^ (1024 : ℕ) := by
  have hexp : doubleExponent (1 / (2 : ℚ) ^ (1024 : ℕ)) = -1022 := by
    apply doubleExponent_small <;> norm_num
  apply roundMagnitude_exact _ (-1074) (2 ^ 50)
  · norm_num
  · rw [hexp]; norm_num


/-- C30, amended: for every Stats snapshot whose `xp >= 0` and
`xp_to_next_level >= 0` are doubles: when `xp + xp_to_next_level > 0` the XP
percentage, computed in double arithmetic, is a finite number between 0 and
100; it is 100 when `xp_to_next_level = 0`, and only then as long as
`xp + xp_to_next_level` is at most `2 ^ 53`; it is 0 exactly when `xp = 0` or
the sum overflows to `Infinity`; when `xp + xp_to_next_level = 0` the
unguarded division is `0 / 0` and the value is `NaN`. -/
theorem xpPercentageDouble_bounds (st : Stats) (hx : 0 ≤ st.xp) (hn : 0 ≤ st.xp_to_next_level)
    (hxd : toDouble (st.xp : ℚ) = .finite (st.xp : ℚ))
    (hnd : toDouble (st.xp_to_next_level : ℚ) = .finite (st.xp_to_next_level : ℚ)) :
    (0 < st.xp + st.xp_to_next_level →
      (∃ p : ℚ, Dashboard.xpPercentageDouble (some st) = .finite p ∧ 0 ≤ p ∧ p ≤ 100) ∧
        (st.xp_to_next_level = 0 → Dashboard.xpPercentageDouble (some st) = .finite 100) ∧
        (st.xp + st.xp_to_next_level ≤ 2 ^ 53 →
          (Dashboard.xpPercentageDouble (some st) = .finite 100 ↔ st.xp_to_next_level = 0)) ∧
        (Dashboard.xpPercentageDouble (some st) = .finite 0 ↔
          st.xp = 0 ∨ toDouble ((st.xp : ℚ) + (st.xp_to_next_level : ℚ)) = .posInf)) ∧
      (st.xp + st.xp_to_next_level = 0 → Dashboard.xpPercentageDouble (some st) = .nan) := by
  have hX : (0 : ℚ) ≤ (st.xp : ℚ) := by exact_mod_cast hx
  have hY : (0 : ℚ) ≤ (st.xp_to_next_level : ℚ) := by exact_mod_cast hn
  have hXe := exact_of_toDouble hX hxd
  constructor
  · intro hpos
    have hS : (0 : ℚ) < (st.xp : ℚ) + (st.xp_to_next_level : ℚ) := by exact_mod_cast hpos
    by_cases hfin :
        roundMagnitude ((st.xp : ℚ) + (st.xp_to_next_level : ℚ)) < (2 : ℚ) ^ (1024 : ℕ)
    · obtain ⟨hP, hs, hq0, hq1⟩ :=
        Dashboard.xpPercentageDouble_of_finite st hx hn hpos hxd hnd hfin
      have hsum : toDouble ((st.xp : ℚ) + (st.xp_to_next_level : ℚ)) ≠ .posInf := by
        unfold toDouble
        rw [if_pos (le_of_lt hS), if_pos hfin]
        simp
      have hquot := toDouble_of_le hq0 hq1 roundMagnitude_one (by norm_num)
      have hprod := toDouble_of_le
        (mul_nonneg hquot.2.1 (by norm_num : (0 : ℚ) ≤ 100))
        (by linarith [hquot.2.2] :
          roundMagnitude ((st.xp : ℚ) /
            roundMagnitude ((st.xp : ℚ) + (st.xp_to_next_level : ℚ))) * 100 ≤ 100)
        roundMagnitude_hundred (by norm_num)
      have hfull : st.xp_to_next_level = 0 →
          Dashboard.xpPercentageDouble (some st) = .finite 100 := by
        intro hy
        have hY0 : (st.xp_to_next_level : ℚ) = 0 := by exact_mod_cast hy
        have hXpos : (st.xp : ℚ) ≠ 0 := by
          rw [hY0, add_zero] at hS
          exact ne_of_gt hS
        rw [hP, hY0, add_zero, hXe.1, div_self hXpos, roundMagnitude_one, one_mul,
          roundMagnitude_hundred]
      refine ⟨⟨_, hP, hprod.2.1, hprod.2.2⟩, hfull, ?_, ?_⟩
      · intro hsmall
        refine ⟨?_, hfull⟩
        intro h100
        by_contra hy
        have hy1 : 1 ≤ st.xp_to_next_level := by omega
        have hY1 : (1 : ℚ) ≤ (st.xp_to_next_level : ℚ) := by exact_mod_cast hy1
        have hSe : roundMagnitude ((st.xp : ℚ) + (st.xp_to_next_level : ℚ)) =
            (st.xp : ℚ) + (st.xp_to_next_level : ℚ) := by
          have := roundMagnitude_int (st.xp + st.xp_to_next_level) (by omega) hsmall
          push_cast at this
          exact this
        have hSle : (st.xp : ℚ) + (st.xp_to_next_level : ℚ) ≤ (2 : ℚ) ^ (53 : ℕ) := by
          exact_mod_cast hsmall
        have hq : (st.xp : ℚ) / roundMagnitude ((st.xp : ℚ) + (st.xp_to_next_level : ℚ)) ≤
            1 - 1 / (2 : ℚ) ^ (53 : ℕ) := by
          rw [hSe, div_le_iff₀ hS]
          have h1 : ((st.xp : ℚ) + (st.xp_to_next_level : ℚ)) / (2 : ℚ) ^ (53 : ℕ) ≤ 1 := by
            rw [div_le_one (by positivity)]
            exact hSle
          have h2 : (1 - 1 / (2 : ℚ) ^ (53 : ℕ)) * ((st.xp : ℚ) + (st.xp_to_next_level : ℚ)) =
              ((st.xp : ℚ) + (st.xp_to_next_level : ℚ)) -
                ((st.xp : ℚ) + (st.xp_to_next_level : ℚ)) / (2 : ℚ) ^ (53 : ℕ) := by ring
          rw [h2]
          linarith
        have hq2 := roundMagnitude_mono hq0 hq
        rw [roundMagnitude_below_one] at hq2
        have hp2 := roundMagnitude_mono (mul_nonneg hquot.2.1 (by norm_num : (0 : ℚ) ≤ 100))
          (mul_le_mul_of_nonneg_right hq2 (by norm_num : (0 : ℚ) ≤ 100))
        rw [roundMagnitude_below_hundred] at hp2
        rw [hP] at h100
        have hp100 : roundMagnitude (roundMagnitude ((st.xp : ℚ) /
            roundMagnitude ((st.xp : ℚ) + (st.xp_to_next_level : ℚ))) * 100) = 100 := by
          injection h100
        rw [hp100] at hp2
        norm_num at hp2
      · constructor
        · intro h0
          left
          by_contra hx0
          have hx1 : 1 ≤ st.xp := by omega
          have hX1 : (1 : ℚ) ≤ (st.xp : ℚ) := by exact_mod_cast hx1
          have ht : (0 : ℚ) < 1 / (2 : ℚ) ^ (1024 : ℕ) := by positivity
          have hq : 1 / (2 : ℚ) ^ (1024 : ℕ) ≤
              (st.xp : ℚ) / roundMagnitude ((st.xp : ℚ) + (st.xp_to_next_level : ℚ)) := by
            rw [le_div_iff₀ hs, div_mul_eq_mul_div, one_mul, div_le_iff₀ (by positivity)]
            nlinarith
          have hq2 := roundMagnitude_mono (le_of_lt ht) hq
          rw [roundMagnitude_tiny] at hq2
          have hle : 1 / (2 : ℚ) ^ (1024 : ℕ) ≤
              roundMagnitude ((st.xp : ℚ) /
                roundMagnitude ((st.xp : ℚ) + (st.xp_to_next_level : ℚ))) * 100 := by
            linarith
          have hp2 := roundMagnitude_mono (le_of_lt ht) hle
          rw [roundMagnitude_tiny] at hp2
          rw [hP] at h0
          have hp0 : roundMagnitude (roundMagnitude ((st.xp : ℚ) /
              roundMagnitude ((st.xp : ℚ) + (st.xp_to_next_level : ℚ))) * 100) = 0 := by
            injection h0
          rw [hp0] at hp2
          linarith
        · rintro (hx0 | hov)
          · have hX0 : (st.xp : ℚ) = 0 := by exact_mod_cast hx0
            rw [hP, hX0, zero_div, roundMagnitude_zero, zero_mul, roundMagnitude_zero]
          · exact absurd hov hsum
    · have hov : toDouble ((st.xp : ℚ) + (st.xp_to_next_level : ℚ)) = .posInf := by
        unfold toDouble
        rw [if_pos (le_of_lt hS), if_neg hfin]
      have hP := Dashboard.xpPercentageDouble_of_overflow st hxd hnd hov
      refine ⟨⟨0, hP, le_refl 0, by norm_num⟩, ?_, ?_, ?_⟩
      · intro hy
        have hY0 : (st.xp_to_next_level : ℚ) = 0 := by exact_mod_cast hy
        rw [hY0, add_zero, hxd] at hov
        exact absurd hov (by simp)
      · intro hsmall
        have := toDouble_int (st.xp + st.xp_to_next_level) (by omega) hsmall
        push_cast at this
        rw [this] at hov
        exact absurd hov (by simp)
      · exact ⟨fun _ => Or.inr hov, fun _ => hP⟩
  · intro hz
    have hx0 : st.xp = 0 := by omega
    have hn0 : st.xp_to_next_level = 0 := by omega
    simp [Dashboard.xpPercentageDouble, hx0, hn0, toDouble_zero, jsAddDouble, jsDivDouble,
      jsTimes100Double]


/-- The sum `2 ^ 53 + 1` lies half way between two doubles and rounds to the
even one, `2 ^ 53`. -/
theorem roundMagnitude_above_two_pow_53 :
    roundMagnitude ((9007199254740992 : ℚ) + 1) = 9007199254740992 := by
  have hexp : doubleExponent ((9007199254740992 : ℚ) + 1) = 53 := by
    apply doubleExponent_eq <;> norm_num
  have htie : ((9007199254740992 : ℚ) + 1) / (2 : ℚ) ^ (53 - 52 : ℤ) =
      ((4503599627370496 : ℤ) : ℚ) + 1 / 2 := by norm_num
  unfold roundMagnitude doubleUlp
  rw [hexp, htie, roundHalfEven_tie _ (by decide)]
  norm_num

theorem toDouble_two_pow_1023 :
    toDouble ((2 : ℚ) ^ (1023 : ℕ)) = .finite ((2 : ℚ) ^ (1023 : ℕ)) := by
  have hexp : doubleExponent ((2 : ℚ) ^ (1023 : ℕ)) = 1023 := by
    apply doubleExponent_eq <;> norm_num
  apply toDouble_of_exact (by positivity)
  · apply roundMagnitude_exact _ 1023 1
    · norm_num
    · rw [hexp]; norm_num
  · norm_num

theorem toDouble_two_pow_1024 :
    toDouble ((2 : ℚ) ^ (1023 : ℕ) + (2 : ℚ) ^ (1023 : ℕ)) = .posInf := by
  have hexp : doubleExponent ((2 : ℚ) ^ (1023 : ℕ) + (2 : ℚ) ^ (1023 : ℕ)) = 1024 := by
    apply doubleExponent_eq <;> norm_num
  have hq : roundMagnitude ((2 : ℚ) ^ (1023 : ℕ) + (2 : ℚ) ^ (1023 : ℕ)) =
      (2 : ℚ) ^ (1023 : ℕ) + (2 : ℚ) ^ (1023 : ℕ) := by
    apply roundMagnitude_exact _ 1024 1
    · norm_num
    · rw [hexp]; norm_num
  unfold toDouble
  rw [if_pos (by positivity), hq, if_neg (by norm_num)]

/-- C30, as stated, fails in double arithmetic: with `xp = 2 ^ 53` and
`xp_to_next_level = 1` the sum rounds back to `2 ^ 53` and the XP percentage
is exactly 100 although `xp_to_next_level` is not 0; with
`xp = xp_to_next_level = 2 ^ 1023` the sum overflows to `Infinity` and the XP
percentage is 0 although `xp` is not 0. -/
theorem xpPercentageDouble_saturates_counterexample :
    0 ≤ sampleSaturatedStats.xp ∧ 0 < sampleSaturatedStats.xp_to_next_level ∧
      toDouble (sampleSaturatedStats.xp : ℚ) = .finite (sampleSaturatedStats.xp : ℚ) ∧
      toDouble (sampleSaturatedStats.xp_to_next_level : ℚ) =
        .finite (sampleSaturatedStats.xp_to_next_level : ℚ) ∧
      Dashboard.xpPercentageDouble (some sampleSaturatedStats) = .finite 100 ∧
      0 < sampleOverflowStats.xp ∧ 0 ≤ sampleOverflowStats.xp_to_next_level ∧
      toDouble (sampleOverflowStats.xp : ℚ) = .finite (sampleOverflowStats.xp : ℚ) ∧
      toDouble (sampleOverflowStats.xp_to_next_level : ℚ) =
        .finite (sampleOverflowStats.xp_to_next_level : ℚ) ∧
      Dashboard.xpPercentageDouble (some sampleOverflowStats) = .finite 0 := by
  have hx : toDouble (sampleSaturatedStats.xp : ℚ) = .finite (sampleSaturatedStats.xp : ℚ) :=
    toDouble_int _ (by decide) (by decide)
  have hn : toDouble (sampleSaturatedStats.xp_to_next_level : ℚ) =
      .finite (sampleSaturatedStats.xp_to_next_level : ℚ) :=
    toDouble_int _ (by decide) (by decide)
  have hcx : (sampleSaturatedStats.xp : ℚ) = 9007199254740992 := by
    simp [sampleSaturatedStats]
  have hcn : (sampleSaturatedStats.xp_to_next_level : ℚ) = 1 := by
    simp [sampleSaturatedStats]
  have hsat : Dashboard.xpPercentageDouble (some sampleSaturatedStats) = .finite 100 := by
    have hfin : roundMagnitude ((sampleSaturatedStats.xp : ℚ) +
        (sampleSaturatedStats.xp_to_next_level : ℚ)) < (2 : ℚ) ^ (1024 : ℕ) := by
      rw [hcx, hcn, roundMagnitude_above_two_pow_53]
      norm_num
    have h := (Dashboard.xpPercentageDouble_of_finite sampleSaturatedStats (by decide)
      (by decide) (by decide) hx hn hfin).1
    rw [hcx, hcn, roundMagnitude_above_two_pow_53,
      div_self (by norm_num : (9007199254740992 : ℚ) ≠ 0), roundMagnitude_one, one_mul,
      roundMagnitude_hundred] at h
    exact h
  have hox : (sampleOverflowStats.xp : ℚ) = (2 : ℚ) ^ (1023 : ℕ) := by
    show (((2 : ℤ) ^ (1023 : ℕ) : ℤ) : ℚ) = (2 : ℚ) ^ (1023 : ℕ)
    rw [Int.cast_pow, Int.cast_ofNat]
  have hon : (sampleOverflowStats.xp_to_next_level : ℚ) = (2 : ℚ) ^ (1023 : ℕ) := by
    show (((2 : ℤ) ^ (1023 : ℕ) : ℤ) : ℚ) = (2 : ℚ) ^ (1023 : ℕ)
    rw [Int.cast_pow, Int.cast_ofNat]
  have hopos : (0 : ℤ) < (2 : ℤ) ^ (1023 : ℕ) := by positivity
  have hx2 : toDouble (sampleOverflowStats.xp : ℚ) = .finite (sampleOverflowStats.xp : ℚ) := by
    rw [hox]
    exact toDouble_two_pow_1023
  have hn2 : toDouble (sampleOverflowStats.xp_to_next_level : ℚ) =
      .finite (sampleOverflowStats.xp_to_next_level : ℚ) := by
    rw [hon]
    exact toDouble_two_pow_1023
  have hov : Dashboard.xpPercentageDouble (some sampleOverflowStats) = .finite 0 :=
    Dashboard.xpPercentageDouble_of_overflow sampleOverflowStats hx2 hn2 (by
      rw [hox, hon]
      exact toDouble_two_pow_1024)
  exact ⟨by decide, by decide, hx, hn, hsat, hopos, le_of_lt hopos, hx2, hn2, hov⟩

/-- C30 (amended) at a concrete input: 30 XP with 70 to go, both doubles,
give a finite percentage between 0 and 100. -/
theorem xpPercentageDouble_bounds_witness :
    0 ≤ sampleStats.xp ∧ 0 ≤ sampleStats.xp_to_next_level ∧
      toDouble (sampleStats.xp : ℚ) = .finite (sampleStats.xp : ℚ) ∧
      toDouble (sampleStats.xp_to_next_level : ℚ) =
        .finite (sampleStats.xp_to_next_level : ℚ) ∧
      0 < sampleStats.xp + sampleStats.xp_to_next_level ∧
      ∃ p : ℚ, Dashboard.xpPercentageDouble (some sampleStats) = .finite p ∧ 0 ≤ p ∧ p ≤ 100 :=
  have hx := toDouble_int sampleStats.xp (by decide) (by decide)
  have hn := toDouble_int sampleStats.xp_to_next_level (by decide) (by decide)
  ⟨by decide, by decide, hx, hn, by decide,
    ((xpPercentageDouble_bounds sampleStats (by decide) (by decide) hx hn).1 (by decide)).1⟩

/-! ## Pending requests -/

/-- C26, evaluated on the Complete buttons: on the sample quest board and on
the sample dashboard a click on Complete issues the completion request and
leaves the button enabled, so a second click, before any answer, issues the
same request again; whereas each of the five other mutating actions of the
quest board leaves its own button disabled once its request is issued. -/
theorem complete_button_not_disabled_while_pending :
    QuestBoard.clickComplete 42 sampleBoard =
        (sampleBoard, [.request "POST" "/quests/42/complete"]) ∧
      QuestBoard.completeDisabled (QuestBoard.clickComplete 42 sampleBoard).1 = false ∧
      (QuestBoard.clickComplete 42 (QuestBoard.clickComplete 42 sampleBoard).1).2 =
        [.request "POST" "/quests/42/complete"] ∧
      Dashboard.clickComplete 42 sampleDashboard =
        (sampleDashboard, [.request "POST" "/quests/42/complete"]) ∧
      Dashboard.completeDisabled (Dashboard.clickComplete 42 sampleDashboard).1 = false ∧
      (Dashboard.clickComplete 42 (Dashboard.clickComplete 42 sampleDashboard).1).2 =
        [.request "POST" "/quests/42/complete"] ∧
      (∀ s, QuestBoard.createDisabled (QuestBoard.handleCreateStart s).1 = true) ∧
      (∀ s, QuestBoard.generateQuestDisabled (QuestBoard.generateQuestStart s).1 = true) ∧
      (∀ s, QuestBoard.photoUploadDisabled (QuestBoard.handlePhotoUploadStart s).1 = true) ∧
      (∀ s, QuestBoard.generateQuizDisabled (QuestBoard.generateQuizStart s).1 = true) ∧
      (∀ s, QuestBoard.submitQuizDisabled (QuestBoard.submitQuizStart s).1 = true) := by
  refine ⟨by decide, rfl, by decide, by decide, rfl, by decide, ?_, ?_, ?_, ?_, ?_⟩
  · intro s
    rfl
  · intro s
    rfl
  · intro s
    unfold QuestBoard.handlePhotoUploadStart
    cases hp : s.photo <;> simp [QuestBoard.photoUploadDisabled, hp]
  · intro s
    unfold QuestBoard.generateQuizStart
    by_cases hn : s.notes = "" <;> simp [QuestBoard.generateQuizDisabled, hn]
  · intro s
    simp [QuestBoard.submitQuizStart, QuestBoard.submitQuizDisabled]

/-! ## Profile: the category chart -/

theorem Profile.keys_tallyStep (acc : List (String × Nat)) (c : String) :
    (Profile.tallyStep acc c).map Prod.fst =
      if c ∈ acc.map Prod.fst then acc.map Prod.fst else acc.map Prod.fst ++ [c] := by
  induction acc with
  | nil => simp [Profile.tallyStep]
  | cons p rest ih =>
    obtain ⟨k, v⟩ := p
    by_cases h : k = c
    · subst h
      simp [Profile.tallyStep]
    · have h2 : ¬ c = k := fun e => h e.symm
      by_cases hm : c ∈ rest.map Prod.fst
      · simp only [Profile.tallyStep, h, if_false, List.map_cons, ih, hm, if_true, List.mem_cons,
          h2, false_or]
      · simp only [Profile.tallyStep, h, if_false, List.map_cons, ih, hm, List.mem_cons, h2,
          false_or, List.cons_append]

theorem Profile.nodup_keys_tallyStep (acc : List (String × Nat)) (c : String)
    (h : (acc.map Prod.fst).Nodup) : ((Profile.tallyStep acc c).map Prod.fst).Nodup := by
  rw [Profile.keys_tallyStep]
  by_cases hm : c ∈ acc.map Prod.fst
  · simpa [hm] using h
  · simp only [hm, if_false]
    rw [List.nodup_append]
    refine ⟨h, List.nodup_singleton c, ?_⟩
    intro x hx hx2
    have : x = c := by simpa using hx2
    exact hm (this ▸ hx)

theorem Profile.mem_keys_tallyStep (acc : List (String × Nat)) (c k : String) :
    k ∈ (Profile.tallyStep acc c).map Prod.fst ↔ k ∈ acc.map Prod.fst ∨ k = c := by
  rw [Profile.keys_tallyStep]
  by_cases hm : c ∈ acc.map Prod.fst
  · simp only [hm, if_true]
    constructor
    · exact fun h => Or.inl h
    · rintro (h | h)
      · exact h
      · exact h ▸ hm
  · simp [hm]

theorem Profile.valueOf_tallyStep (acc : List (String × Nat)) (c k : String) :
    Profile.valueOf (Profile.tallyStep acc c) k =
      Profile.valueOf acc k + (if c = k then 1 else 0) := by
  induction acc with
  | nil => simp [Profile.tallyStep, Profile.valueOf]
  | cons p rest ih =>
    obtain ⟨a, v⟩ := p
    by_cases h : a = c
    · subst h
      by_cases hk : a = k
      · simp [Profile.tallyStep, Profile.valueOf, hk]
      · simp [Profile.tallyStep, Profile.valueOf, hk]
    · by_cases hk : a = k
      · subst hk
        have : ¬ c = a := fun e => h e.symm
        simp [Profile.tallyStep, Profile.valueOf, h, this]
      · simp [Profile.tallyStep, Profile.valueOf, h, hk, ih]

theorem Profile.sum_tallyStep (acc : List (String × Nat)) (c : String) :
    ((Profile.tallyStep acc c).map Prod.snd).sum = (acc.map Prod.snd).sum + 1 := by
  induction acc with
  | nil => simp [Profile.tallyStep]
  | cons p rest ih =>
    obtain ⟨a, v⟩ := p
    by_cases h : a = c
    · simp [Profile.tallyStep, h]
      omega
    · simp [Profile.tallyStep, h, ih]
      omega

theorem Profile.valueOf_of_mem (acc : List (String × Nat)) (k : String) (n : Nat)
    (hnd : (acc.map Prod.fst).Nodup) (hm : (k, n) ∈ acc) : Profile.valueOf acc k = n := by
  induction acc with
  | nil => simp at hm
  | cons p rest ih =>
    obtain ⟨a, v⟩ := p
    rw [List.map_cons, List.nodup_cons] at hnd
    rcases List.mem_cons.mp hm with h | h
    · injection h with h1 h2
      subst h1 h2
      simp [Profile.valueOf]
    · have hk : k ∈ rest.map Prod.fst := List.mem_map.mpr ⟨(k, n), h, rfl⟩
      have hne : ¬ a = k := fun e => hnd.1 (e ▸ hk)
      simp [Profile.valueOf, hne, ih hnd.2 h]

theorem Profile.fold_tallyStep_spec (quests : List Quest) (acc : List (String × Nat))
    (hnd : (acc.map Prod.fst).Nodup) :
    ((quests.foldl (fun a q => Profile.tallyStep a q.category) acc).map Prod.fst).Nodup ∧
      (∀ k, k ∈ (quests.foldl (fun a q => Profile.tallyStep a q.category) acc).map Prod.fst ↔
        k ∈ acc.map Prod.fst ∨ k ∈ quests.map (fun q => q.category)) ∧
      (∀ k, Profile.valueOf (quests.foldl (fun a q => Profile.tallyStep a q.category) acc) k =
        Profile.valueOf acc k + quests.countP (fun q => decide (q.category = k))) ∧
      ((quests.foldl (fun a q => Profile.tallyStep a q.category) acc).map Prod.snd).sum =
        (acc.map Prod.snd).sum + quests.length := by
  induction quests generalizing acc with
  | nil => simp [hnd]
  | cons q rest ih =>
    have h := ih (Profile.tallyStep acc q.category) (Profile.nodup_keys_tallyStep acc q.category hnd)
    simp only [List.foldl_cons]
    refine ⟨h.1, ?_, ?_, ?_⟩
    · intro k
      rw [h.2.1 k, Profile.mem_keys_tallyStep]
      simp only [List.map_cons, List.mem_cons]
      tauto
    · intro k
      rw [h.2.2.1 k, Profile.valueOf_tallyStep, List.countP_cons]
      by_cases hk : q.category = k
      · simp [hk]
        omega
      · simp [hk]
    · rw [h.2.2.2, Profile.sum_tallyStep, List.length_cons]
      omega

theorem Profile.lookup_lift (t : List (String × Nat)) (c : String) :
    Profile.lookup (t.map (fun e => (e.1, JsValue.num e.2))) c = none ∨
      ∃ n, Profile.lookup (t.map (fun e => (e.1, JsValue.num e.2))) c = some (.num n) := by
  induction t with
  | nil => exact Or.inl rfl
  | cons p rest ih =>
    obtain ⟨k, v⟩ := p
    by_cases h : k = c
    · exact Or.inr ⟨v, by simp [Profile.lookup, h]⟩
    · simpa [Profile.lookup, h] using ih

theorem Profile.assign_lift (t : List (String × Nat)) (c : String) (w : JsValue)
    (hnone : Profile.lookup (t.map (fun e => (e.1, JsValue.num e.2))) c = none → w = .num 1)
    (hsome : ∀ n, Profile.lookup (t.map (fun e => (e.1, JsValue.num e.2))) c = some (.num n) →
      w = .num (n + 1)) :
    Profile.assign (t.map (fun e => (e.1, JsValue.num e.2))) c w =
      (Profile.tallyStep t c).map (fun e => (e.1, JsValue.num e.2)) := by
  induction t with
  | nil =>
    have hw : w = .num 1 := hnone rfl
    simp [Profile.assign, Profile.tallyStep, hw]
  | cons p rest ih =>
    obtain ⟨k, v⟩ := p
    by_cases h : k = c
    · have hw : w = .num (v + 1) := hsome v (by simp [Profile.lookup, h])
      simp [Profile.assign, Profile.tallyStep, h, hw]
    · have h1 : Profile.lookup (rest.map (fun e => (e.1, JsValue.num e.2))) c = none →
          w = .num 1 := fun hl => hnone (by simpa [Profile.lookup, h] using hl)
      have h2 : ∀ n, Profile.lookup (rest.map (fun e => (e.1, JsValue.num e.2))) c =
          some (.num n) → w = .num (n + 1) :=
        fun n hl => hsome n (by simpa [Profile.lookup, h] using hl)
      simp [Profile.assign, Profile.tallyStep, h, ih h1 h2]

theorem Profile.bump_ordinary (nativeText : String → String) (t : List (String × Nat))
    (c : String) (hc : Profile.ordinary c) :
    Profile.bump nativeText (t.map (fun e => (e.1, JsValue.num e.2))) c =
      (Profile.tallyStep t c).map (fun e => (e.1, JsValue.num e.2)) := by
  unfold Profile.bump
  rw [if_neg hc.1]
  apply Profile.assign_lift
  · intro hl
    simp [Profile.nextValue, hl, hc.2]
  · intro n hl
    simp [Profile.nextValue, hl]

theorem Profile.fold_bump_ordinary (nativeText : String → String) (quests : List Quest)
    (t : List (String × Nat)) (h : ∀ q ∈ quests, Profile.ordinary q.category) :
    quests.foldl (fun acc q => Profile.bump nativeText acc q.category)
        (t.map (fun e => (e.1, JsValue.num e.2))) =
      (quests.foldl (fun acc q => Profile.tallyStep acc q.category) t).map
        (fun e => (e.1, JsValue.num e.2)) := by
  induction quests generalizing t with
  | nil => rfl
  | cons q rest ih =>
    have hq : Profile.ordinary q.category := h q (by simp)
    have hrest : ∀ x ∈ rest, Profile.ordinary x.category := fun x hx => h x (by simp [hx])
    simp only [List.foldl_cons]
    rw [Profile.bump_ordinary nativeText t q.category hq]
    exact ih _ hrest

theorem Profile.entries_perm (acc : List (String × JsValue)) :
    (Profile.entries acc).Perm acc := by
  unfold Profile.entries
  exact ((List.perm_insertionSort _ _).append_right _).trans
    (List.filter_append_perm (fun e => (Profile.arrayIndex e.1).isSome) acc)

/-- The chart on ordinary categories: when no completed quest has a category
named `__proto__` or like an inherited function, `categoryData` is the tally
of the categories: one pair per distinct category, each with the number of
quests of that category, the counts summing to the length of the list; and
the chart has, in some order, one entry per pair: the capitalised category
with that count. -/
theorem chartData_of_ordinary_categories (toUpperCase nativeText : String → String)
    (quests : List Quest) (h : ∀ q ∈ quests, Profile.ordinary q.category) :
    Profile.categoryData nativeText quests =
        (Profile.tally quests).map (fun e => (e.1, JsValue.num e.2)) ∧
      ((Profile.tally quests).map Prod.fst).Nodup ∧
      (∀ k, k ∈ (Profile.tally quests).map Prod.fst ↔ k ∈ quests.map (fun q => q.category)) ∧
      (∀ k n, (k, n) ∈ Profile.tally quests →
        n = quests.countP (fun q => decide (q.category = k))) ∧
      ((Profile.tally quests).map Prod.snd).sum = quests.length ∧
      (Profile.chartData toUpperCase nativeText quests).Perm
        ((Profile.tally quests).map
          (fun e => { name := Profile.capitalize toUpperCase e.1, quests := .num e.2 })) ∧
      (Profile.chartData toUpperCase nativeText quests).length =
        (quests.map (fun q => q.category)).dedup.length := by
  have hspec := Profile.fold_tallyStep_spec quests [] (by simp)
  have hcd : Profile.categoryData nativeText quests =
      (Profile.tally quests).map (fun e => (e.1, JsValue.num e.2)) :=
    Profile.fold_bump_ordinary nativeText quests [] h
  have hnd : ((Profile.tally quests).map Prod.fst).Nodup := hspec.1
  have hmem : ∀ k, k ∈ (Profile.tally quests).map Prod.fst ↔
      k ∈ quests.map (fun q => q.category) := by
    intro k
    have := hspec.2.1 k
    simpa [Profile.tally] using this
  have hval : ∀ k n, (k, n) ∈ Profile.tally quests →
      n = quests.countP (fun q => decide (q.category = k)) := by
    intro k n hk
    have h1 := Profile.valueOf_of_mem _ k n hnd hk
    have h2 := hspec.2.2.1 k
    simp only [Profile.valueOf, Nat.zero_add] at h2
    rw [← h1]
    exact h2
  have hsum : ((Profile.tally quests).map Prod.snd).sum = quests.length := by
    have hs := hspec.2.2.2
    simp only [List.map_nil, List.sum_nil, Nat.zero_add] at hs
    exact hs
  have hperm : (Profile.chartData toUpperCase nativeText quests).Perm
      ((Profile.tally quests).map
        (fun e => { name := Profile.capitalize toUpperCase e.1, quests := .num e.2 })) := by
    unfold Profile.chartData
    have hp := (Profile.entries_perm (Profile.categoryData nativeText quests)).map
      (fun entry => ({ name := Profile.capitalize toUpperCase entry.1, quests := entry.2 } :
        ChartEntry))
    rw [hcd, List.map_map] at hp
    rw [hcd]
    exact hp
  refine ⟨hcd, hnd, hmem, hval, hsum, hperm, ?_⟩
  have hset : ((Profile.tally quests).map Prod.fst).toFinset =
      (quests.map (fun q => q.category)).toFinset := by
    ext k
    simp only [List.mem_toFinset]
    exact hmem k
  rw [hperm.length_eq, List.length_map, ← List.length_map (Profile.tally quests) Prod.fst,
    ← List.toFinset_card_of_nodup hnd, hset, List.card_toFinset]

theorem append_one_ne_empty (text : String) : ¬ (text ++ "1" = "") := by
  intro h
  have h1 := congrArg String.length h
  rw [String.length_append] at h1
  have h2 : "1".length = 1 := rfl
  have h3 : "".length = 0 := rfl
  omega

/-- C29, evaluated on categories that name inherited members of the
accumulator object: a completed quest of category `__proto__` gets no entry,
so the chart of one `study` and one `__proto__` quest has one entry for two
distinct categories and its counts sum to 1 for a list of length 2; and for
two quests of category `constructor` the entry holds a string (the text of
the inherited function followed by `11`), not the count 2. -/
theorem chartData_miscounts_inherited_names (toUpperCase nativeText : String → String) :
    Profile.categoryData nativeText sampleProtoQuests = [("study", .num 1)] ∧
      (Profile.chartData toUpperCase nativeText sampleProtoQuests).map (fun e => e.quests) =
        [.num 1] ∧
      (Profile.chartData toUpperCase nativeText sampleProtoQuests).length = 1 ∧
      (sampleProtoQuests.map (fun q => q.category)).dedup.length = 2 ∧
      sampleProtoQuests.length = 2 ∧
      Profile.categoryData nativeText sampleConstructorQuests =
        [("constructor", .str (nativeText "constructor" ++ "1" ++ "1"))] ∧
      (Profile.chartData toUpperCase nativeText sampleConstructorQuests).map (fun e => e.quests) =
        [.str (nativeText "constructor" ++ "1" ++ "1")] := by
  have hc : Profile.categoryData nativeText sampleConstructorQuests =
      [("constructor", .str (nativeText "constructor" ++ "1" ++ "1"))] := by
    simp [Profile.categoryData, sampleConstructorQuests, Profile.bump, Profile.nextValue,
      Profile.lookup, Profile.assign, Profile.inheritedFunctions, sampleQuest,
      append_one_ne_empty]
  refine ⟨rfl, rfl, rfl, by decide, rfl, hc, ?_⟩
  unfold Profile.chartData
  rw [hc]
  rfl

end LifeGame
